import Mathlib

/-! The navigation controller of `tui/handlers.go`.

A shallow embedding of the per-stage event handlers and of the three
background task bodies, followed by the properties proved about them.

Conventions of the embedding.

* A Go `string` is its sequence of bytes (`GoString`), because `len` and
  slicing in `prettyTrim` count bytes.
* A channel is the identity of the `make(chan ...)` call that created it.
* A `tea.Cmd` value is the list of the atomic commands it runs: `nil` is the
  empty list, `tea.Quit` the one-element list holding `Op.quit`, and
  `tea.Batch` concatenates.
* `log.Fatal` and run-time panics end the process; a handler therefore
  returns an `Outcome`.
* The widgets of the `bubbles` library are external. Their `Update`
  functions are parameters (`Widgets`). The list operations the handlers call
  are modelled on the list with its filter: `Index` and `SelectedItem` refer
  to the visible items, `Items`, `SetItems` and `SetItem` to all items.
* A `float64` value is the rational number it stands for; conversion and
  division round to the nearest binary64 value (`float64Round`).
* `[]*scraper.URL` is a list of `URL` values (the pointers are non-nil).
-/

namespace Tui

/-- A Go string, as bytes. -/
abbrev GoString := List UInt8

/-- The bytes of a string literal. -/
def goStr (s : String) : GoString := s.toUTF8.data.toList

/-- A channel, named by its allocation. -/
abbrev Chan := Nat

/-- Modelled from the spec: `scraper.URL`, declared outside `handlers.go`; the
handlers read `Info` and `Source` only. -/
structure URL where
  Address : GoString
  Info : GoString
  Source : Nat
deriving DecidableEq

/-- Modelled from the spec: the `Stage` enum (`bubbleState`), declared outside
`handlers.go`. -/
inductive bubbleState where
  | searchState
  | spinnerState
  | mangaSelectState
  | chaptersSelectState
  | promptState
  | progressState
  | exitPromptState
deriving DecidableEq

open bubbleState

/-- The `key.Binding` of the `bubbles` library: the keys bound to one symbolic
action and the disabled flag. -/
structure Binding where
  keys : List GoString
  disabled : Bool
deriving DecidableEq

/-- The library's `Binding.Enabled`: not disabled and some key is set. -/
def Binding.Enabled (b : Binding) : Bool := !b.disabled && !b.keys.isEmpty

/-- The library's `key.Matches(msg, bindings...)`, on `msg.String()`. -/
def Matches (k : GoString) (bs : List Binding) : Bool :=
  bs.any (fun b => b.keys.any (fun v => decide (k = v) && b.Enabled))

/-- Modelled from the spec: `keyMap`, the symbolic actions of one stage
(declared outside `handlers.go`). -/
structure keyMap where
  Quit : Binding
  Back : Binding
  Confirm : Binding
  Select : Binding
  SelectAll : Binding
deriving DecidableEq

/-- Modelled from the spec: `listItem` (declared outside `handlers.go`): a URL
and its visible mark. -/
structure listItem where
  selected : Bool
  url : URL
deriving DecidableEq

/-- Modelled from the spec: `listItem.mark` toggles the visible mark. -/
def listItem.mark (l : listItem) : listItem := { l with selected := !l.selected }

/-- Modelled from the spec: `listItem.Title`, the display name of an item. -/
def listItem.Title (l : listItem) : GoString := l.url.Info

/-- The result pair `(list, err)` of a source capability call. -/
structure SourceResult where
  urls : List URL
  err : Bool
deriving DecidableEq

/-- Modelled from the spec: the source capability `scraper.Source`. -/
structure Source where
  Mangas : GoString → SourceResult
  Chapters : URL → SourceResult

/-- Modelled from the spec: the configuration, of which the handlers read the
list of used sources. -/
structure Config where
  UsedSources : List Source

/-- The text input widget, as far as the handlers read it. -/
structure TextInput where
  Value : GoString
  cursor : Nat

/-- The spinner widget. -/
structure SpinnerModel where
  frame : Nat

/-- The progress bar widget. -/
structure ProgressModel where
  percent : ℚ
  frame : Nat

/-- The list widget (`list.Model`): title, all items, the items an active
filter shows (`none` when the list is unfiltered), the index of the cursor
among the visible items, and the spinner and status line it shows. -/
structure ListModel where
  Title : GoString
  items : List listItem
  filtered : Option (List listItem)
  cursor : Nat
  spinning : Bool
  status : GoString

/-- Modelled from the spec: `Bubble`, the Workflow Context (declared outside
`handlers.go`). A fraction is the rational value of the `float64`. -/
structure Bubble where
  state : bubbleState
  keys : bubbleState → keyMap
  config : Config
  input : TextInput
  spinner : SpinnerModel
  manga : ListModel
  chapters : ListModel
  progress : ProgressModel
  sub : Chan
  tick : Chan
  pagesChan : Chan
  selected : Finset Nat
  prevManga : GoString
  prevChapter : GoString
  pagesCount : Nat
  converting : Bool
  width : Int
  height : Int

/-- Events delivered to the handlers (`tea.Msg`). -/
inductive Msg where
  | WindowSizeMsg (Width Height : Int)
  | KeyMsg (key : GoString)
  | sourceResponseMsg (urls : List URL)
  | progressInfoMsg (percent : ℚ) (text : GoString)
  | subProgressInfoMsg (PagesCount : Nat) (ConvertingToPdf : Bool)
  | FrameMsg (tag : Nat)
  | other (tag : Nat)

/-- Atomic commands: what a `tea.Cmd` built by the handlers runs. The three
task launchers capture the values they were called with. -/
inductive Op where
  | quit
  | spinnerTick
  | searchMangaAsync (b : Bubble)
  | getChaptersAsync (sub : Chan) (url : URL)
  | startDownloaderAsync (b : Bubble)
  | waitForSourceResponse (sub : Chan)
  | waitForDownloaderResponse (sub : Chan)
  | waitForDownloaderSubResponse (sub : Chan)
  | widget (tag : Nat)

/-- A `tea.Cmd`. -/
abbrev Cmd := List Op

/-- The `nil` command. -/
def nilCmd : Cmd := []

/-- The command `tea.Quit`. -/
def Quit : Cmd := [Op.quit]

/-- The command `tea.Batch(cmds...)`. -/
def Batch (cmds : List Cmd) : Cmd := cmds.flatten

/-- The `Update` functions of the widget layer, and `progress.SetPercent`. -/
structure Widgets where
  inputUpdate : TextInput → Msg → TextInput × Cmd
  spinnerUpdate : SpinnerModel → Msg → SpinnerModel × Cmd
  listUpdate : ListModel → Msg → ListModel × Cmd
  progressUpdate : ProgressModel → Msg → ProgressModel × Cmd
  setPercent : ProgressModel → ℚ → ProgressModel × Cmd

/-- What a handler call ends in: the new model and command, or the end of the
process by `log.Fatal` or by a run-time panic. -/
inductive Outcome where
  | ok (b : Bubble) (cmd : Cmd)
  | fatal (text : String)
  | panic

/-- The list widget's `Items`. -/
def ListModel.Items (m : ListModel) : List listItem := m.items

/-- The list widget's `VisibleItems`: the filtered items when a filter is
active, all items otherwise. -/
def ListModel.VisibleItems (m : ListModel) : List listItem :=
  match m.filtered with
  | none => m.items
  | some shown => shown

/-- The list widget's `SetItems`: all items are replaced; with a filter active
the filtered items are emptied and a command that filters again is
returned. -/
def ListModel.SetItems (m : ListModel) (items : List listItem) : ListModel × Cmd :=
  ({ m with items := items, filtered := m.filtered.map (fun _ => []) },
    if m.filtered.isSome then [Op.widget 2] else nilCmd)

/-- The list widget's `SetItem`: the store `m.items[index] = item`, for an
index inside the items (the handler models the panic outside of them); with a
filter active a command that filters again is returned. -/
def ListModel.SetItem (m : ListModel) (index : Nat) (item : listItem) : ListModel × Cmd :=
  ({ m with items := m.items.set index item },
    if m.filtered.isSome then [Op.widget 2] else nilCmd)

/-- The list widget's `Index`: the index of the cursor among the visible
items. -/
def ListModel.Index (m : ListModel) : Nat := m.cursor

/-- The list widget's `SelectedItem`: the visible item at `Index`, `nil` when
there is none. -/
def ListModel.SelectedItem (m : ListModel) : Option listItem :=
  m.VisibleItems.get? m.Index

/-- The list widget's `Select`. -/
def ListModel.Select (m : ListModel) (index : Nat) : ListModel := { m with cursor := index }

/-- The list widget's `StartSpinner`. -/
def ListModel.StartSpinner (m : ListModel) : ListModel × Cmd :=
  ({ m with spinning := true }, [Op.widget 0])

/-- The list widget's `StopSpinner`. -/
def ListModel.StopSpinner (m : ListModel) : ListModel := { m with spinning := false }

/-- The list widget's `NewStatusMessage`. -/
def ListModel.NewStatusMessage (m : ListModel) (s : GoString) : ListModel × Cmd :=
  ({ m with status := s }, [Op.widget 1])

/-- Modelled from the spec: `Bubble.resize` adjusts the layout only. -/
def Bubble.resize (b : Bubble) (width height : Int) : Bubble :=
  { b with width := width, height := height }

/-- The function `prettyTrim`; `none` is the slice-bounds panic of
`str[:limit-3]`. -/
def prettyTrim (str : GoString) (limit : Int) : Option GoString :=
  if (str.length : Int) > limit then
    if limit - 3 < 0 then none
    else some (str.take (limit - 3).toNat ++ goStr "...")
  else some str

/-- The loop that wraps each delivered URL in a `listItem`. -/
def wrapItems (msg : List URL) : List listItem :=
  msg.foldl (fun items url => items ++ [{ selected := false, url := url }]) []

/-- The toggle of one index in the selection map. -/
def toggle (selected : Finset Nat) (i : Nat) : Finset Nat :=
  if i ∈ selected then selected.erase i else insert i selected

/-- The handler of the Search stage. -/
def handleSearchState (w : Widgets) (b : Bubble) (msg : Msg) : Outcome :=
  let k := b.keys searchState
  let finish := fun (b : Bubble) (cmds : List Cmd) =>
    let r := w.inputUpdate b.input msg
    Outcome.ok { b with input := r.1 } (Batch (cmds ++ [r.2]))
  match msg with
  | Msg.WindowSizeMsg width height => Outcome.ok (b.resize width height) nilCmd
  | Msg.KeyMsg key =>
    if Matches key [k.Quit] || Matches key [k.Back] then Outcome.ok b Quit
    else if Matches key [k.Confirm] then
      let b := { b with state := spinnerState }
      finish b [Batch [[Op.spinnerTick], [Op.searchMangaAsync b], [Op.waitForSourceResponse b.sub]]]
    else finish b []
  | _ => finish b []

/-- The handler of the Spinner stage; `fresh` is the channel that
`make(chan []*scraper.URL)` returns. -/
def handleSpinnerState (w : Widgets) (fresh : Chan) (b : Bubble) (msg : Msg) : Outcome :=
  let k := b.keys spinnerState
  let finish := fun (b : Bubble) (cmds : List Cmd) =>
    let r := w.spinnerUpdate b.spinner msg
    Outcome.ok { b with spinner := r.1 } (Batch (cmds ++ [r.2]))
  match msg with
  | Msg.WindowSizeMsg width height => Outcome.ok (b.resize width height) nilCmd
  | Msg.KeyMsg key =>
    if Matches key [k.Quit] then Outcome.ok b Quit
    else if Matches key [k.Back] then
      finish { b with state := searchState, sub := fresh } []
    else finish b []
  | Msg.sourceResponseMsg urls =>
    let b := { b with state := mangaSelectState }
    match prettyTrim b.input.Value 30 with
    | none => Outcome.panic
    | some t =>
      let b := { b with manga := { b.manga with Title := goStr "Manga - " ++ t } }
      let items := wrapItems urls
      let r := b.manga.SetItems items
      finish { b with manga := r.1 } [r.2]
  | _ => finish b []

/-- The handler of the ItemSelect stage. -/
def handleMangaSelectState (w : Widgets) (b : Bubble) (msg : Msg) : Outcome :=
  let k := b.keys mangaSelectState
  let finish := fun (b : Bubble) (cmds : List Cmd) =>
    let r := w.listUpdate b.manga msg
    Outcome.ok { b with manga := r.1 } (Batch (cmds ++ [r.2]))
  match msg with
  | Msg.WindowSizeMsg width height => Outcome.ok (b.resize width height) nilCmd
  | Msg.sourceResponseMsg urls =>
    let b := { b with state := chaptersSelectState }
    match prettyTrim b.prevManga 30 with
    | none => Outcome.panic
    | some t =>
      let b := { b with chapters := { b.chapters with Title := goStr "Chapters - " ++ t } }
      let items := wrapItems urls
      let b := { b with manga := b.manga.StopSpinner }
      let r := b.chapters.SetItems items
      let b := { b with chapters := r.1 }
      let s := b.manga.NewStatusMessage (goStr "")
      finish { b with manga := s.1 } [r.2, s.2]
  | Msg.KeyMsg key =>
    if Matches key [k.Quit] then Outcome.ok b Quit
    else if Matches key [k.Back] then
      Outcome.ok { b with state := searchState, manga := b.manga.Select 0 } nilCmd
    else if Matches key [k.Select] || Matches key [k.Confirm] then
      match b.manga.SelectedItem with
      | none => Outcome.ok b nilCmd
      | some item =>
        let b := { b with prevManga := item.Title }
        let s := b.manga.StartSpinner
        let b := { b with manga := s.1 }
        let n := b.manga.NewStatusMessage (goStr "Loading...")
        let b := { b with manga := n.1 }
        finish b
          [Batch [[Op.getChaptersAsync b.sub item.url], [Op.waitForSourceResponse b.sub], s.2, n.2]]
    else finish b []
  | _ => finish b []

/-- One iteration of the select-all loop at position `i`. -/
def selectAllStep (st : List listItem × Finset Nat) (i : Nat) : List listItem × Finset Nat :=
  match st.1.get? i with
  | none => st
  | some item => (st.1.set i item.mark, toggle st.2 i)

/-- The select-all loop of the ChildSelect stage: for each position of the
item slice, mark the item, toggle the position in the selection map and
store the item back. -/
def selectAllLoop (items : List listItem) (selected : Finset Nat) :
    List listItem × Finset Nat :=
  (List.range items.length).foldl selectAllStep (items, selected)

/-- The handler of the ChildSelect stage. -/
def handleChaptersSelectState (w : Widgets) (b : Bubble) (msg : Msg) : Outcome :=
  let k := b.keys chaptersSelectState
  let finish := fun (b : Bubble) (cmds : List Cmd) =>
    let r := w.listUpdate b.chapters msg
    Outcome.ok { b with chapters := r.1 } (Batch (cmds ++ [r.2]))
  match msg with
  | Msg.WindowSizeMsg width height => Outcome.ok (b.resize width height) nilCmd
  | Msg.KeyMsg key =>
    if Matches key [k.Quit] then Outcome.ok b Quit
    else if Matches key [k.Back] then
      Outcome.ok { b with state := mangaSelectState, selected := ∅ } nilCmd
    else if Matches key [k.Confirm] then
      Outcome.ok { b with state := promptState } nilCmd
    else if Matches key [k.SelectAll] then
      let st := selectAllLoop b.chapters.Items b.selected
      let r := b.chapters.SetItems st.1
      Outcome.ok { b with selected := st.2, chapters := r.1 } r.2
    else if Matches key [k.Select] then
      let index := b.chapters.Index
      match b.chapters.SelectedItem with
      | none => Outcome.fatal "Unknown chapter is selected"
      | some item =>
        let b := { b with selected := toggle b.selected index }
        if index < b.chapters.Items.length then
          let r := b.chapters.SetItem index item.mark
          Outcome.ok { b with chapters := r.1 } r.2
        else Outcome.panic
    else finish b []
  | _ => finish b []

/-- The handler of the Prompt stage. -/
def handlePromptState (b : Bubble) (msg : Msg) : Outcome :=
  let k := b.keys promptState
  match msg with
  | Msg.WindowSizeMsg width height => Outcome.ok (b.resize width height) nilCmd
  | Msg.KeyMsg key =>
    if Matches key [k.Back] then Outcome.ok { b with state := chaptersSelectState } nilCmd
    else if Matches key [k.Quit] then Outcome.ok b Quit
    else if Matches key [k.Confirm] then
      let b := { b with state := progressState }
      Outcome.ok b
        (Batch [[Op.startDownloaderAsync b], [Op.spinnerTick],
          [Op.waitForDownloaderResponse b.tick], [Op.waitForDownloaderSubResponse b.pagesChan]])
    else Outcome.ok b nilCmd
  | _ => Outcome.ok b nilCmd

/-- The handler of the Progress stage. -/
def handleProgressState (w : Widgets) (b : Bubble) (msg : Msg) : Outcome :=
  let k := b.keys progressState
  let finish := fun (b : Bubble) (cmds : List Cmd) =>
    let r := w.spinnerUpdate b.spinner msg
    Outcome.ok { b with spinner := r.1 } (Batch (cmds ++ [r.2]))
  match msg with
  | Msg.WindowSizeMsg width height => finish (b.resize width height) []
  | Msg.KeyMsg key =>
    if Matches key [k.Quit] then Outcome.ok b Quit
    else finish b []
  | Msg.progressInfoMsg percent text =>
    if percent = 1 then Outcome.ok { b with state := exitPromptState } nilCmd
    else
      let r := w.setPercent b.progress percent
      let b := { b with progress := r.1, prevChapter := text }
      Outcome.ok b
        (Batch [r.2, [Op.waitForDownloaderResponse b.tick],
          [Op.waitForDownloaderSubResponse b.pagesChan]])
  | Msg.subProgressInfoMsg pagesCount converting =>
    let b := { b with pagesCount := pagesCount, converting := converting }
    finish b
      [Batch [[Op.waitForDownloaderResponse b.tick], [Op.waitForDownloaderSubResponse b.pagesChan]]]
  | Msg.FrameMsg tag =>
    let r := w.progressUpdate b.progress (Msg.FrameMsg tag)
    Outcome.ok { b with progress := r.1 } r.2
  | _ => finish b []

/-- The handler of the ExitPrompt stage. -/
def handleExitPromptState (b : Bubble) (msg : Msg) : Outcome :=
  let k := b.keys exitPromptState
  match msg with
  | Msg.WindowSizeMsg width height => Outcome.ok (b.resize width height) nilCmd
  | Msg.KeyMsg key =>
    if Matches key [k.Back] then Outcome.ok { b with state := chaptersSelectState } nilCmd
    else if Matches key [k.Quit] then Outcome.ok b Quit
    else Outcome.ok b nilCmd
  | _ => Outcome.ok b nilCmd

/-- Modelled from the spec: the State Machine's dispatch `handle(stage, event)`
(the `Update` method is outside `handlers.go`): the handler of the active
stage is called. -/
def handle (w : Widgets) (fresh : Chan) (b : Bubble) (msg : Msg) : Outcome :=
  match b.state with
  | searchState => handleSearchState w b msg
  | spinnerState => handleSpinnerState w fresh b msg
  | mangaSelectState => handleMangaSelectState w b msg
  | chaptersSelectState => handleChaptersSelectState w b msg
  | promptState => handlePromptState b msg
  | progressState => handleProgressState w b msg
  | exitPromptState => handleExitPromptState b msg

/-- What a background task does, in program order: its channel sends, its
calls of the download capability, and a run-time panic that ends it. -/
inductive Event where
  | sendSub (c : Chan) (v : List URL)
  | sendTick (c : Chan) (percent : ℚ) (text : GoString)
  | download (parent : GoString) (url : URL) (sink : Chan)
  | panic
deriving DecidableEq

/-- Where one per-source goroutine of the search task stands. The statement
`found = append(found, mangas...)` reads the shared slice and then writes it;
nothing orders these two accesses with those of the other goroutines. -/
inductive SubTask where
  | start
  | called (mangas : List URL)
  | loaded (mangas : List URL) (old : List URL)
  | done
deriving DecidableEq

/-- The shared slice `found` and the goroutines of the search task. -/
structure SearchState where
  found : List URL
  tasks : List SubTask
deriving DecidableEq

/-- One step of goroutine `i`: call the source, read `found`, or write
`found` and finish. -/
def searchStep (query : GoString) (srcs : List Source) (st : SearchState) (i : Nat) :
    SearchState :=
  match st.tasks.get? i, srcs.get? i with
  | some SubTask.start, some src =>
    let r := src.Mangas query
    if r.err then { st with tasks := st.tasks.set i SubTask.done }
    else { st with tasks := st.tasks.set i (SubTask.called r.urls) }
  | some (SubTask.called mangas), _ =>
    { st with tasks := st.tasks.set i (SubTask.loaded mangas st.found) }
  | some (SubTask.loaded mangas old), _ =>
    { found := old ++ mangas, tasks := st.tasks.set i SubTask.done }
  | _, _ => st

/-- The task body of `searchMangaAsync(b)` under a schedule of its goroutines:
once every goroutine is done, `wg.Wait` returns and `found` is sent. -/
def searchMangaAsync (b : Bubble) (schedule : List Nat) : List Event :=
  let srcs := b.config.UsedSources
  let st := schedule.foldl (searchStep b.input.Value srcs)
    { found := [], tasks := srcs.map (fun _ => SubTask.start) }
  if st.tasks.all (fun t => decide (t = SubTask.done)) then [Event.sendSub b.sub st.found]
  else []

/-- The task body of `getChaptersAsync(sub, url)`; `sources` resolves the
source an URL points to. -/
def getChaptersAsync (sources : Nat → Source) (sub : Chan) (url : URL) : List Event :=
  let r := (sources url.Source).Chapters url
  (if r.err then [Event.sendSub sub []] else []) ++ [Event.sendSub sub r.urls]

/-- Rounding of a rational to the nearest integer, a tie going to the even
one. -/
def roundHalfEven (m : ℚ) : ℤ :=
  if m - ⌊m⌋ < 1 / 2 then ⌊m⌋
  else if 1 / 2 < m - ⌊m⌋ then ⌊m⌋ + 1
  else if ⌊m⌋ % 2 = 0 then ⌊m⌋ else ⌊m⌋ + 1

/-- The binary exponent at which a positive rational is rounded to binary64:
the exponent of the largest power of two not above it, and -1022 for the
subnormal range below. -/
def float64Exponent (x : ℚ) : ℤ := max (Int.log 2 x) (-1022)

/-- The binary64 value nearest to a rational, a tie going to the even
significand: at exponent e the binary64 values are the multiples of
2^(e-52). Overflow to infinity is left out; the operands here are Go ints
and quotients of them. -/
def float64Round (x : ℚ) : ℚ :=
  if x = 0 then 0
  else if 0 < x then
    (roundHalfEven (x / 2 ^ (float64Exponent x - 52)) : ℚ) * 2 ^ (float64Exponent x - 52)
  else
    -((roundHalfEven (-x / 2 ^ (float64Exponent (-x) - 52)) : ℚ)
        * 2 ^ (float64Exponent (-x) - 52))

/-- The conversion `float64(n)` of a non-negative Go int. -/
def float64OfInt (n : Nat) : ℚ := float64Round n

/-- The division of two `float64` values: the quotient, rounded. The divisor
in `startDownloaderAsync` is `float64(len(b.selected))` inside the loop body,
where the map has at least one key, so division by zero does not arise. -/
def float64Div (a b : ℚ) : ℚ := float64Round (a / b)

/-- The loop of `startDownloaderAsync` over the keys that `range b.selected`
yields, followed by the final send. -/
def downloadLoop (b : Bubble) (items : List listItem) :
    List Nat → Nat → GoString → ℚ → List Event
  | [], _, prevInfo, percent => [Event.sendTick b.tick percent prevInfo]
  | index :: rest, count, _, percent =>
    match items.get? index with
    | none => [Event.panic]
    | some chapter =>
      let prevInfo := chapter.url.Info
      Event.sendTick b.tick percent prevInfo ::
        Event.download b.prevManga chapter.url b.pagesChan ::
        downloadLoop b items rest (count + 1) prevInfo
          (float64Div (float64OfInt (count + 1)) (float64OfInt b.selected.card))

/-- The task body of `startDownloaderAsync(b)`; `order` is the order in which
`range` yields the keys of the selection map, which Go leaves unspecified. -/
def startDownloaderAsync (b : Bubble) (order : List Nat) : List Event :=
  downloadLoop b b.chapters.Items order 0 [] 0

/-- An order in which `range` may yield the keys of a map: every key once. -/
def RangeOrder (selected : Finset Nat) (order : List Nat) : Prop :=
  order.Nodup ∧ order.toFinset = selected

instance (selected : Finset Nat) (order : List Nat) : Decidable (RangeOrder selected order) :=
  inferInstanceAs (Decidable (_ ∧ _))

/-- The download calls of a trace, in order. -/
def downloads (t : List Event) : List (GoString × URL × Chan) :=
  t.filterMap (fun e =>
    match e with
    | Event.download parent url sink => some (parent, url, sink)
    | _ => none)

/-- The values a trace sends on the search-result channel `c`, in order. -/
def sentOn (c : Chan) (t : List Event) : List (List URL) :=
  t.filterMap (fun e =>
    match e with
    | Event.sendSub c' v => if c' = c then some v else none
    | _ => none)

/-- The key press is the select-all key of the ChildSelect stage: it matches
the SelectAll binding and none of the bindings tested before it. -/
def selectAllKey (b : Bubble) (key : GoString) : Prop :=
  Matches key [(b.keys chaptersSelectState).Quit] = false ∧
  Matches key [(b.keys chaptersSelectState).Back] = false ∧
  Matches key [(b.keys chaptersSelectState).Confirm] = false ∧
  Matches key [(b.keys chaptersSelectState).SelectAll] = true

instance (b : Bubble) (key : GoString) : Decidable (selectAllKey b key) :=
  inferInstanceAs (Decidable (_ ∧ _ ∧ _ ∧ _))

/-- The stage of an outcome, when the process goes on. -/
def Outcome.state? : Outcome → Option bubbleState
  | Outcome.ok b _ => some b.state
  | _ => none

/-! ## Concrete inputs -/

/-- A binding of one key. -/
def bind1 (k : String) : Binding := { keys := [goStr k], disabled := false }

/-- Distinct keys for the five actions. -/
def plainKeys : keyMap :=
  { Quit := bind1 "ctrl+c", Back := bind1 "esc", Confirm := bind1 "enter",
    Select := bind1 " ", SelectAll := bind1 "tab" }

/-- A key map in which the key `q` is bound to Back and to Quit. -/
def sharedKeys : keyMap := { plainKeys with Quit := bind1 "q", Back := bind1 "q" }

/-- An empty, unfiltered list widget. -/
def emptyList : ListModel :=
  { Title := [], items := [], filtered := none, cursor := 0, spinning := false, status := [] }

/-- Widgets whose updates change nothing and return no command. -/
def idleWidgets : Widgets :=
  { inputUpdate := fun m _ => (m, nilCmd)
    spinnerUpdate := fun m _ => (m, nilCmd)
    listUpdate := fun m _ => (m, nilCmd)
    progressUpdate := fun m _ => (m, nilCmd)
    setPercent := fun m p => ({ m with percent := p }, nilCmd) }

/-- A context at start: Search stage, nothing selected. -/
def startBubble : Bubble :=
  { state := searchState, keys := fun _ => plainKeys, config := { UsedSources := [] },
    input := { Value := [], cursor := 0 }, spinner := { frame := 0 },
    manga := emptyList, chapters := emptyList, progress := { percent := 0, frame := 0 },
    sub := 0, tick := 1, pagesChan := 2, selected := ∅, prevManga := [], prevChapter := [],
    pagesCount := 0, converting := false, width := 80, height := 24 }

/-- A context in the Prompt stage whose key `q` is bound to Back and to Quit. -/
def promptShared : Bubble :=
  { startBubble with state := promptState, keys := fun _ => sharedKeys }

/-- A context in the ExitPrompt stage with distinct keys. -/
def exitPlain : Bubble := { startBubble with state := exitPromptState }

/-- A context in the Progress stage. -/
def progressBubble : Bubble := { startBubble with state := progressState }

/-- The child item shown at a position, unmarked. -/
def chapterAt (i : Nat) : listItem :=
  { selected := false, url := { Address := [], Info := [UInt8.ofNat (48 + i)], Source := 0 } }

/-- A context in the ChildSelect stage: ten children, of which the three at
positions 1, 4 and 7 are selected and marked. -/
def childBubble : Bubble :=
  { startBubble with
    state := chaptersSelectState
    chapters :=
      { emptyList with
        items := (List.range 10).map
          (fun i => if i = 1 ∨ i = 4 ∨ i = 7 then (chapterAt i).mark else chapterAt i) }
    selected := {1, 4, 7} }

/-- A context in the Spinner stage. -/
def spinnerBubble : Bubble := { startBubble with state := spinnerState }

/-- Two URLs of a search result. -/
def urlA : URL := { Address := goStr "a", Info := goStr "A", Source := 0 }

/-- The second URL. -/
def urlB : URL := { Address := goStr "b", Info := goStr "B", Source := 1 }

/-- The contexts reachable from `b0` through the stage handlers, whatever the
events and the channels allocated on the way. -/
inductive Reachable (w : Widgets) (b0 : Bubble) : Bubble → Prop where
  | start : Reachable w b0 b0
  | step {b b1 : Bubble} {cmd : Cmd} (fresh : Chan) (msg : Msg) :
      Reachable w b0 b → handle w fresh b msg = Outcome.ok b1 cmd → Reachable w b0 b1

/-- The selection set is empty in the stages Search, Spinner and ItemSelect. -/
def SelectionCleared (b : Bubble) : Prop :=
  b.state = searchState ∨ b.state = spinnerState ∨ b.state = mangaSelectState →
    b.selected = ∅

/-- A source whose search succeeds with the given URLs and whose children
fetch fails. -/
def sourceOf (urls : List URL) : Source :=
  { Mangas := fun _ => { urls := urls, err := false }
    Chapters := fun _ => { urls := [], err := true } }

/-- A source whose children fetch succeeds with two children. -/
def goodSource : Source :=
  { Mangas := fun _ => { urls := [], err := false }
    Chapters := fun _ => { urls := [urlA, urlB], err := false } }

/-- The sources behind the URLs: source 0 fails its children fetch, the
others succeed. -/
def sourceTable (i : Nat) : Source := if i = 0 then sourceOf [] else goodSource

/-- A context with two configured sources, one finding `urlA` and one finding
`urlB`. -/
def twoSources : Bubble :=
  { startBubble with
    state := spinnerState
    config := { UsedSources := [sourceOf [urlA], sourceOf [urlB]] } }

/-- A context with two children, both selected. -/
def bothSelected : Bubble :=
  { startBubble with
    state := progressState
    chapters := { emptyList with items := [chapterAt 0, chapterAt 1] }
    selected := {0, 1} }

/-- A context with two children and a selection outside the child list. -/
def staleSelected : Bubble := { bothSelected with selected := {5} }

/-- The download call made for the child at position `i`, if there is one. -/
def downloadAt (b : Bubble) (i : Nat) : Option (GoString × URL × Chan) :=
  (b.chapters.Items.get? i).map (fun chapter => (b.prevManga, chapter.url, b.pagesChan))

/-- The selected positions of the child list in display order, that is in
increasing order. -/
def displayOrder (b : Bubble) : List Nat :=
  (List.range b.chapters.Items.length).filter (fun i => decide (i ∈ b.selected))

/-- The fractions of the progress updates of a trace, in order. -/
def fractions (t : List Event) : List ℚ :=
  t.filterMap (fun e =>
    match e with
    | Event.sendTick _ percent _ => some percent
    | _ => none)

/-- The label of a progress update. -/
def Event.text? : Event → Option GoString
  | Event.sendTick _ _ text => some text
  | _ => none

/-- A context in the Prompt stage with distinct keys. -/
def promptPlain : Bubble := { startBubble with state := promptState }

/-- The relay `waitForSourceResponse(sub)`: the event it returns for the value
it received from `sub`. -/
def waitForSourceResponse (received : List URL) : Msg := Msg.sourceResponseMsg received

/-- The channels on which a command arms a search-result relay. -/
def sourceRelays (c : Cmd) : List Chan :=
  c.filterMap (fun o =>
    match o with
    | Op.waitForSourceResponse sub => some sub
    | _ => none)

/-- The search tasks a command launches, each with the context it captured. -/
def searchTasks (c : Cmd) : List Bubble :=
  c.filterMap (fun o =>
    match o with
    | Op.searchMangaAsync b => some b
    | _ => none)

/-- The controller at run time: the context, the channels with a pending
search-result relay, and the search tasks that have not sent yet. -/
structure Runtime where
  b : Bubble
  relays : List Chan
  searches : List Bubble

/-- An event is handled; the relays and search tasks of the returned command
start running. -/
def Runtime.dispatch (w : Widgets) (fresh : Chan) (r : Runtime) (msg : Msg) : Option Runtime :=
  match handle w fresh r.b msg with
  | Outcome.ok b cmd =>
    some { b := b, relays := r.relays ++ sourceRelays cmd,
           searches := r.searches ++ searchTasks cmd }
  | _ => none

/-- The search task at position `i` runs to its send under `schedule`; a relay
pending on the channel it sends on receives the value, and the event the
relay returns is handled. -/
def Runtime.finishSearch (w : Widgets) (fresh : Chan) (r : Runtime) (i : Nat)
    (schedule : List Nat) : Option Runtime :=
  match r.searches.get? i with
  | none => none
  | some t =>
    match searchMangaAsync t schedule with
    | [Event.sendSub c v] =>
      if c ∈ r.relays then
        Runtime.dispatch w fresh
          { r with relays := r.relays.erase c, searches := r.searches.eraseIdx i }
          (waitForSourceResponse v)
      else none
    | _ => none

/-- Widgets whose text input appends a one-byte key to its value. -/
def typingWidgets : Widgets :=
  { idleWidgets with
    inputUpdate := fun m msg =>
      match msg with
      | Msg.KeyMsg key => if key.length = 1 then ({ m with Value := m.Value ++ key }, nilCmd)
                          else (m, nilCmd)
      | _ => (m, nilCmd) }

/-- A source that finds one item, named after the query. -/
def echoSource : Source :=
  { Mangas := fun q => { urls := [{ Address := [], Info := q, Source := 0 }], err := false }
    Chapters := fun _ => { urls := [], err := false } }

/-- The controller at start with the query `a` typed and one source. -/
def typedA : Runtime :=
  { b := { startBubble with
           input := { Value := goStr "a", cursor := 1 }
           config := { UsedSources := [echoSource] } }
    relays := [], searches := [] }

/-- The run: confirm the search for `a`, go back while it is in flight, type
`b`, confirm the search for `ab`. -/
def backAndSearchAgain : Option Runtime :=
  (typedA.dispatch typingWidgets 5 (Msg.KeyMsg (goStr "enter"))).bind fun r1 =>
  (r1.dispatch typingWidgets 5 (Msg.KeyMsg (goStr "esc"))).bind fun r2 =>
  (r2.dispatch typingWidgets 6 (Msg.KeyMsg (goStr "b"))).bind fun r3 =>
  r3.dispatch typingWidgets 6 (Msg.KeyMsg (goStr "enter"))

/-- The same run, after which the abandoned search for `a` completes. -/
def staleDelivery : Option Runtime :=
  backAndSearchAgain.bind fun r4 => r4.finishSearch typingWidgets 7 0 [0, 0, 0]

/-- Lock-step of marks and selection set: a position is in the selection set
exactly when there is a child at that position and it is marked. -/
def LockStep (b : Bubble) : Prop :=
  ∀ i, i ∈ b.selected ↔ ∃ item, b.chapters.Items.get? i = some item ∧ item.selected = true

/-- The key press is the select key of the ChildSelect stage: it matches the
Select binding and none of the bindings tested before it. -/
def selectKey (b : Bubble) (key : GoString) : Prop :=
  Matches key [(b.keys chaptersSelectState).Quit] = false ∧
  Matches key [(b.keys chaptersSelectState).Back] = false ∧
  Matches key [(b.keys chaptersSelectState).Confirm] = false ∧
  Matches key [(b.keys chaptersSelectState).SelectAll] = false ∧
  Matches key [(b.keys chaptersSelectState).Select] = true

instance (b : Bubble) (key : GoString) : Decidable (selectKey b key) :=
  inferInstanceAs (Decidable (_ ∧ _ ∧ _ ∧ _ ∧ _))

/-- A context in the ItemSelect stage whose item list is empty, so that no
item is selected. -/
def itemSelectEmpty : Bubble := { startBubble with state := mangaSelectState }

/-- Whether the event matches one of the explicit cases of the handler of the
active stage: a case of its type switch and, for a key press, one of the key
cases inside it. -/
def explicitCase (b : Bubble) (msg : Msg) : Bool :=
  let k := b.keys b.state
  match b.state, msg with
  | _, Msg.WindowSizeMsg _ _ => true
  | searchState, Msg.KeyMsg key =>
    Matches key [k.Quit] || Matches key [k.Back] || Matches key [k.Confirm]
  | spinnerState, Msg.KeyMsg key => Matches key [k.Quit] || Matches key [k.Back]
  | spinnerState, Msg.sourceResponseMsg _ => true
  | mangaSelectState, Msg.sourceResponseMsg _ => true
  | mangaSelectState, Msg.KeyMsg key =>
    Matches key [k.Quit] || Matches key [k.Back] || Matches key [k.Select] ||
      Matches key [k.Confirm]
  | chaptersSelectState, Msg.KeyMsg key =>
    Matches key [k.Quit] || Matches key [k.Back] || Matches key [k.Confirm] ||
      Matches key [k.SelectAll] || Matches key [k.Select]
  | promptState, Msg.KeyMsg key =>
    Matches key [k.Back] || Matches key [k.Quit] || Matches key [k.Confirm]
  | progressState, Msg.KeyMsg key => Matches key [k.Quit]
  | progressState, Msg.progressInfoMsg _ _ => true
  | progressState, Msg.subProgressInfoMsg _ _ => true
  | progressState, Msg.FrameMsg _ => true
  | exitPromptState, Msg.KeyMsg key => Matches key [k.Back] || Matches key [k.Quit]
  | _, _ => false

/-- Widgets whose every update changes the widget and returns a command. -/
def loudWidgets : Widgets :=
  { inputUpdate := fun m _ => ({ m with cursor := m.cursor + 1 }, [Op.widget 9])
    spinnerUpdate := fun m _ => ({ frame := m.frame + 1 }, [Op.widget 9])
    listUpdate := fun m _ => ({ m with cursor := m.cursor + 1 }, [Op.widget 9])
    progressUpdate := fun m _ => ({ m with frame := m.frame + 1 }, [Op.widget 9])
    setPercent := fun m p => ({ m with percent := p }, [Op.widget 9]) }

/-- Every selected position is a position of the child list. -/
def InRange (b : Bubble) : Prop := ∀ i ∈ b.selected, i < b.chapters.Items.length

/-- The list widget's own update keeps the number of items. -/
def KeepsItemCount (w : Widgets) : Prop :=
  ∀ m msg, (w.listUpdate m msg).1.items.length = m.items.length

/-- A context in the ChildSelect stage with two unmarked children and nothing
selected. -/
def childNoneSelected : Bubble :=
  { startBubble with
    state := chaptersSelectState
    chapters := { emptyList with items := [chapterAt 0, chapterAt 1] } }

/-- A query of 38 bytes. -/
def longQuery : GoString := goStr "the quick brown fox jumps over the dog"

/-- The context of an outcome, when the process goes on. -/
def Outcome.bubble? : Outcome → Option Bubble
  | Outcome.ok b _ => some b
  | _ => none

/-- The context after handling a sequence of events, each given with the
channel allocated while it is handled; `none` when the process ends on the
way. -/
def runEvents (w : Widgets) (b : Bubble) : List (Chan × Msg) → Option Bubble
  | [] => some b
  | (fresh, msg) :: rest =>
    match handle w fresh b msg with
    | Outcome.ok b1 _ => runEvents w b1 rest
    | _ => none

/-- A session: confirm the search, receive one item, confirm it, receive its
two children, select the first child, go back. -/
def selectThenBack : List (Chan × Msg) :=
  [(7, Msg.KeyMsg (goStr "enter")), (7, Msg.sourceResponseMsg [urlA]),
    (7, Msg.KeyMsg (goStr "enter")), (7, Msg.sourceResponseMsg [urlA, urlB]),
    (7, Msg.KeyMsg (goStr " ")), (7, Msg.KeyMsg (goStr "esc"))]

/-- The context of that session after the select key. -/
def afterSelect : Bubble :=
  (runEvents idleWidgets startBubble (selectThenBack.take 5)).getD startBubble

/-- The context of that session after the back key. -/
def afterBack : Bubble :=
  (runEvents idleWidgets startBubble selectThenBack).getD startBubble

/-- Widgets whose list applies, on the key `/`, a filter for the term `B`: the
visible items are those with that descriptor, and the cursor goes to the
first of them. The other updates change nothing. -/
def filterWidgets : Widgets :=
  { idleWidgets with
    listUpdate := fun m msg =>
      match msg with
      | Msg.KeyMsg key =>
        if key = goStr "/" then
          ({ m with
             filtered := some (m.items.filter (fun c => decide (c.url.Info = goStr "B")))
             cursor := 0 }, nilCmd)
        else (m, nilCmd)
      | _ => (m, nilCmd) }

/-- A session: confirm the search, receive one item, confirm it, receive its
two children `A` and `B`, select the first child, filter the child list for
`B`, press the select key on the visible item. -/
def selectUnderFilter : List (Chan × Msg) :=
  [(7, Msg.KeyMsg (goStr "enter")), (7, Msg.sourceResponseMsg [urlA]),
    (7, Msg.KeyMsg (goStr "enter")), (7, Msg.sourceResponseMsg [urlA, urlB]),
    (7, Msg.KeyMsg (goStr " ")), (7, Msg.KeyMsg (goStr "/")),
    (7, Msg.KeyMsg (goStr " "))]

/-- The context of that session once the filter is active. -/
def filteredChild : Bubble :=
  (runEvents filterWidgets startBubble (selectUnderFilter.take 6)).getD startBubble

/-- The two children of that session, unmarked. -/
def childA : listItem := { selected := false, url := urlA }

/-- The second child. -/
def childB : listItem := { selected := false, url := urlB }

/-! ## Helper lemmas -/

theorem prettyTrim_thirty (s : GoString) : ∃ t, prettyTrim s 30 = some t := by
  by_cases h : (s.length : Int) > 30 <;> simp [prettyTrim, h]

theorem wrapItems_foldl (acc : List listItem) (msg : List URL) :
    msg.foldl (fun items url => items ++ [{ selected := false, url := url }]) acc
      = acc ++ msg.map (fun url => { selected := false, url := url }) := by
  induction msg generalizing acc with
  | nil => simp
  | cons u us ih => simp [List.foldl_cons, ih]

theorem wrapItems_eq_map (msg : List URL) :
    wrapItems msg = msg.map (fun url => { selected := false, url := url }) := by
  simp [wrapItems, wrapItems_foldl]

theorem mem_toggle (S : Finset Nat) (i j : Nat) : j ∈ toggle S i ↔ (j ∈ S ↔ j ≠ i) := by
  unfold toggle
  by_cases hi : i ∈ S
  · by_cases hj : j = i
    · subst hj; simp [hi]
    · simp [hi, hj]
  · by_cases hj : j = i
    · subst hj; simp [hi]
    · simp [hi, hj]

theorem mem_foldl_toggle (l : List Nat) (hl : l.Nodup) (S : Finset Nat) (j : Nat) :
    j ∈ l.foldl toggle S ↔ (j ∈ S ↔ j ∉ l) := by
  induction l generalizing S with
  | nil => simp
  | cons i l ih =>
    have hi : i ∉ l := (List.nodup_cons.mp hl).1
    rw [List.foldl_cons, ih (List.nodup_cons.mp hl).2, mem_toggle, List.mem_cons]
    by_cases hj : j = i
    · subst hj; simp [hi]
    · simp [hj]

theorem foldl_selectAllStep (l : List Nat) (items : List listItem) (S : Finset Nat)
    (h : ∀ i ∈ l, i < items.length) :
    (l.foldl selectAllStep (items, S)).2 = l.foldl toggle S ∧
      (l.foldl selectAllStep (items, S)).1.length = items.length := by
  induction l generalizing items S with
  | nil => simp
  | cons i l ih =>
    have hi : i < items.length := h i (List.mem_cons_self _ _)
    have hstep : selectAllStep (items, S) i = (items.set i (items.get ⟨i, hi⟩).mark, toggle S i) := by
      simp [selectAllStep, List.getElem?_eq_getElem hi]
    rw [List.foldl_cons, List.foldl_cons, hstep]
    have h2 : ∀ k ∈ l, k < (items.set i (items.get ⟨i, hi⟩).mark).length := by
      intro k hk
      rw [List.length_set]
      exact h k (List.mem_cons_of_mem _ hk)
    have := ih (items.set i (items.get ⟨i, hi⟩).mark) (toggle S i) h2
    rw [List.length_set] at this
    exact this

theorem selectAllLoop_selected (items : List listItem) (S : Finset Nat) :
    (selectAllLoop items S).2 = (List.range items.length).foldl toggle S :=
  (foldl_selectAllStep _ items S (fun _ hi => List.mem_range.mp hi)).1

theorem selectAllLoop_length (items : List listItem) (S : Finset Nat) :
    (selectAllLoop items S).1.length = items.length :=
  (foldl_selectAllStep _ items S (fun _ hi => List.mem_range.mp hi)).2

theorem mem_selectAllLoop (items : List listItem) (S : Finset Nat) (j : Nat) :
    j ∈ (selectAllLoop items S).2 ↔ (j ∈ S ↔ ¬ j < items.length) := by
  rw [selectAllLoop_selected, mem_foldl_toggle _ (List.nodup_range _), List.mem_range]

/-! ## Quit and back keys -/

/-- C1 (as stated, refuted): in the Prompt stage with the key `q` bound to both
Back and Quit, the key press matches the Quit binding, yet the handler takes
the Back case: the stage becomes ChildSelect and the command is nil, not the
terminate-process command. -/
theorem quit_key_prompt_shared_back_wins :
    Matches (goStr "q") [(promptShared.keys promptShared.state).Quit] = true ∧
    handle idleWidgets 7 promptShared (Msg.KeyMsg (goStr "q"))
      = Outcome.ok { promptShared with state := chaptersSelectState } nilCmd ∧
    ∀ b, handle idleWidgets 7 promptShared (Msg.KeyMsg (goStr "q")) ≠ Outcome.ok b Quit := by
  have h : handle idleWidgets 7 promptShared (Msg.KeyMsg (goStr "q"))
      = Outcome.ok { promptShared with state := chaptersSelectState } nilCmd := by
    rfl
  refine ⟨by decide, h, ?_⟩
  intro b hb
  rw [h] at hb
  simp [nilCmd, Quit] at hb

/-- C1 (amended): in every stage, for every context and key-binding
configuration, a key press that matches the stage's Quit binding returns the
unchanged context with the terminate-process command, provided that in the
Prompt and ExitPrompt stages the key does not also match the stage's Back
binding. -/
theorem quit_key_terminates (w : Widgets) (fresh : Chan) (b : Bubble) (key : GoString)
    (hq : Matches key [(b.keys b.state).Quit] = true)
    (hb : b.state = promptState ∨ b.state = exitPromptState →
      Matches key [(b.keys b.state).Back] = false) :
    handle w fresh b (Msg.KeyMsg key) = Outcome.ok b Quit := by
  cases hs : b.state <;> rw [hs] at hq hb <;> simp at hb
  · simp [handle, hs, handleSearchState, hq]
  · simp [handle, hs, handleSpinnerState, hq]
  · simp [handle, hs, handleMangaSelectState, hq]
  · simp [handle, hs, handleChaptersSelectState, hq]
  · simp [handle, hs, handlePromptState, hq, hb]
  · simp [handle, hs, handleProgressState, hq]
  · simp [handle, hs, handleExitPromptState, hq, hb]

/-- Witness of C1 (amended): the quit key of the ExitPrompt stage with distinct
keys. -/
theorem quit_key_terminates_witness :
    handle idleWidgets 7 exitPlain (Msg.KeyMsg (goStr "ctrl+c")) = Outcome.ok exitPlain Quit :=
  quit_key_terminates idleWidgets 7 exitPlain (goStr "ctrl+c") (by decide) (fun _ => by decide)

/-- C2: in the ChildSelect stage, for every context (whatever its selection
set), a back-key event (a key press that is not the quit key and matches the
Back binding) yields the context with stage ItemSelect and an empty selection
set, and the nil command: nothing is launched. -/
theorem childSelect_back_clears (w : Widgets) (fresh : Chan) (b : Bubble) (key : GoString)
    (hs : b.state = chaptersSelectState)
    (hq : Matches key [(b.keys chaptersSelectState).Quit] = false)
    (hb : Matches key [(b.keys chaptersSelectState).Back] = true) :
    handle w fresh b (Msg.KeyMsg key)
      = Outcome.ok { b with state := mangaSelectState, selected := ∅ } nilCmd := by
  simp [handle, hs, handleChaptersSelectState, hq, hb]

/-- Witness of C2: back from ChildSelect with three children selected. -/
theorem childSelect_back_clears_witness :
    handle idleWidgets 7 childBubble (Msg.KeyMsg (goStr "esc"))
      = Outcome.ok { childBubble with state := mangaSelectState, selected := ∅ } nilCmd :=
  childSelect_back_clears idleWidgets 7 childBubble (goStr "esc") rfl (by decide) (by decide)

/-! ## Select-all -/

theorem handle_selectAll (w : Widgets) (fresh : Chan) (b : Bubble) (key : GoString)
    (hs : b.state = chaptersSelectState) (hk : selectAllKey b key) :
    handle w fresh b (Msg.KeyMsg key)
      = Outcome.ok
          { b with
            selected := (selectAllLoop b.chapters.Items b.selected).2
            chapters := (b.chapters.SetItems (selectAllLoop b.chapters.Items b.selected).1).1 }
          (b.chapters.SetItems (selectAllLoop b.chapters.Items b.selected).1).2 := by
  obtain ⟨hq, hb, hc, ha⟩ := hk
  simp [handle, hs, handleChaptersSelectState, hq, hb, hc, ha]

/-- C3: in the ChildSelect stage, for every child list and every selection
set, handling the select-all key twice in a row gives back the original
selection set (and the child list keeps its length in between). -/
theorem selectAll_twice_restores (w : Widgets) (fresh fresh2 : Chan) (b : Bubble)
    (key : GoString) (hs : b.state = chaptersSelectState) (hk : selectAllKey b key) :
    ∃ b1 c1 b2 c2,
      handle w fresh b (Msg.KeyMsg key) = Outcome.ok b1 c1 ∧
      b1.chapters.Items.length = b.chapters.Items.length ∧
      handle w fresh2 b1 (Msg.KeyMsg key) = Outcome.ok b2 c2 ∧
      b2.selected = b.selected := by
  refine ⟨_, _, _, _, handle_selectAll w fresh b key hs hk, ?_,
    handle_selectAll w fresh2 _ key hs hk, ?_⟩
  · simp [ListModel.SetItems, ListModel.Items, selectAllLoop_length]
  · ext j
    simp only [ListModel.SetItems, ListModel.Items]
    rw [mem_selectAllLoop, mem_selectAllLoop, selectAllLoop_length]
    tauto

/-- Witness of C3: select-all twice on ten children with three selected. -/
theorem selectAll_twice_restores_witness :
    ∃ b1 c1 b2 c2,
      handle idleWidgets 7 childBubble (Msg.KeyMsg (goStr "tab")) = Outcome.ok b1 c1 ∧
      b1.chapters.Items.length = childBubble.chapters.Items.length ∧
      handle idleWidgets 8 b1 (Msg.KeyMsg (goStr "tab")) = Outcome.ok b2 c2 ∧
      b2.selected = childBubble.selected :=
  selectAll_twice_restores idleWidgets 7 8 childBubble (goStr "tab") rfl (by decide)

/-- C4: in the ChildSelect stage, for every child list of length n and every
selection set S of positions below n, handling the select-all key once
yields the selection set of the positions below n that are not in S. -/
theorem selectAll_complements (w : Widgets) (fresh : Chan) (b : Bubble) (key : GoString)
    (hs : b.state = chaptersSelectState) (hk : selectAllKey b key)
    (hS : ∀ i ∈ b.selected, i < b.chapters.Items.length) :
    ∃ b1 c1,
      handle w fresh b (Msg.KeyMsg key) = Outcome.ok b1 c1 ∧
      b1.selected = Finset.range b.chapters.Items.length \ b.selected := by
  refine ⟨_, _, handle_selectAll w fresh b key hs hk, ?_⟩
  ext j
  simp only [ListModel.Items] at hS ⊢
  rw [mem_selectAllLoop, Finset.mem_sdiff, Finset.mem_range]
  have := hS j
  tauto

/-- Witness of C4: with the positions 1, 4 and 7 of ten children selected,
select-all leaves exactly the other seven positions selected. -/
theorem selectAll_complements_witness :
    (∀ i ∈ childBubble.selected, i < childBubble.chapters.Items.length) ∧
    ∃ b1 c1,
      handle idleWidgets 7 childBubble (Msg.KeyMsg (goStr "tab")) = Outcome.ok b1 c1 ∧
      b1.selected = ({0, 2, 3, 5, 6, 8, 9} : Finset Nat) := by
  have hS : ∀ i ∈ childBubble.selected, i < childBubble.chapters.Items.length := by decide
  obtain ⟨b1, c1, h1, h2⟩ :=
    selectAll_complements idleWidgets 7 childBubble (goStr "tab") rfl (by decide) hS
  exact ⟨hS, b1, c1, h1, by rw [h2]; decide⟩

/-! ## Progress and search results -/

/-- C5: in the Progress stage, for every context (whatever fraction it
recorded before) and every progress result with fraction f: if f is exactly
1 the next stage is ExitPrompt, and if 0 ≤ f < 1 the next stage is
Progress. -/
theorem progress_result_stage (w : Widgets) (fresh : Chan) (b : Bubble) (f : ℚ)
    (text : GoString) (hs : b.state = progressState) :
    (f = 1 → (handle w fresh b (Msg.progressInfoMsg f text)).state? = some exitPromptState) ∧
    (0 ≤ f → f < 1 →
      (handle w fresh b (Msg.progressInfoMsg f text)).state? = some progressState) := by
  constructor
  · intro hf
    simp [handle, hs, handleProgressState, hf, Outcome.state?]
  · intro _ hf
    have hne : f ≠ 1 := ne_of_lt hf
    simp [handle, hs, handleProgressState, hne, Outcome.state?]

/-- Witness of C5: the fractions 1 and 1/2 delivered in the Progress stage. -/
theorem progress_result_stage_witness :
    (handle idleWidgets 7 progressBubble (Msg.progressInfoMsg 1 [])).state?
      = some exitPromptState ∧
    (handle idleWidgets 7 progressBubble (Msg.progressInfoMsg (1 / 2) [])).state?
      = some progressState :=
  ⟨(progress_result_stage idleWidgets 7 progressBubble 1 [] rfl).1 rfl,
   (progress_result_stage idleWidgets 7 progressBubble (1 / 2) [] rfl).2
     (by norm_num) (by norm_num)⟩

theorem handle_spinner_result (w : Widgets) (fresh : Chan) (b : Bubble) (L : List URL)
    (t : GoString) (hs : b.state = spinnerState) (ht : prettyTrim b.input.Value 30 = some t) :
    handle w fresh b (Msg.sourceResponseMsg L)
      = Outcome.ok
          { b with
            state := mangaSelectState
            manga := (ListModel.SetItems { b.manga with Title := goStr "Manga - " ++ t }
              (wrapItems L)).1
            spinner := (w.spinnerUpdate b.spinner (Msg.sourceResponseMsg L)).1 }
          (Batch ([(ListModel.SetItems { b.manga with Title := goStr "Manga - " ++ t }
              (wrapItems L)).2]
            ++ [(w.spinnerUpdate b.spinner (Msg.sourceResponseMsg L)).2])) := by
  simp only [handle, hs, handleSpinnerState, ht]

/-- C6: in the Spinner stage, for every context and every delivered
search-result list L, handling the search result yields the stage ItemSelect
and an item list with one entry per element of L in the same order: its
length is the length of L and its i-th entry holds the i-th delivered
item. -/
theorem spinner_search_result (w : Widgets) (fresh : Chan) (b : Bubble) (L : List URL)
    (hs : b.state = spinnerState) :
    ∃ b1 c1,
      handle w fresh b (Msg.sourceResponseMsg L) = Outcome.ok b1 c1 ∧
      b1.state = mangaSelectState ∧
      b1.manga.Items.length = L.length ∧
      ∀ i, (b1.manga.Items.get? i).map listItem.url = L.get? i := by
  obtain ⟨t, ht⟩ := prettyTrim_thirty b.input.Value
  refine ⟨_, _, handle_spinner_result w fresh b L t hs ht, rfl, ?_, ?_⟩
  · simp [ListModel.Items, ListModel.SetItems, wrapItems_eq_map]
  · intro i
    simp only [ListModel.Items, ListModel.SetItems, wrapItems_eq_map, List.get?_eq_getElem?,
      List.getElem?_map]
    cases L[i]? <;> rfl

/-- Witness of C6: two URLs delivered in the Spinner stage. -/
theorem spinner_search_result_witness :
    ∃ b1 c1,
      handle idleWidgets 7 spinnerBubble (Msg.sourceResponseMsg [urlA, urlB]) = Outcome.ok b1 c1 ∧
      b1.state = mangaSelectState ∧
      b1.manga.Items.length = [urlA, urlB].length ∧
      ∀ i, (b1.manga.Items.get? i).map listItem.url = [urlA, urlB].get? i :=
  spinner_search_result idleWidgets 7 spinnerBubble [urlA, urlB] rfl

/-! ## The selection set outside ChildSelect -/

theorem handle_preserves_cleared (w : Widgets) (fresh : Chan) (b b1 : Bubble) (msg : Msg)
    (cmd : Cmd) (hinv : SelectionCleared b) (h : handle w fresh b msg = Outcome.ok b1 cmd) :
    SelectionCleared b1 := by
  unfold SelectionCleared at *
  cases hs : b.state <;> simp only [handle, hs] at h
  · unfold handleSearchState at h
    cases msg <;> simp only [] at h <;> (try split_ifs at h) <;> cases h <;>
      simp_all [Bubble.resize]
  · unfold handleSpinnerState at h
    cases msg <;> simp only [] at h <;> (try split at h) <;> (try split_ifs at h) <;>
      cases h <;> simp_all [Bubble.resize, ListModel.SetItems]
  · unfold handleMangaSelectState at h
    cases msg <;> simp only [] at h <;> (try split at h) <;> (try split_ifs at h) <;>
      (try split at h) <;> cases h <;>
      simp_all [Bubble.resize, ListModel.SetItems, ListModel.StopSpinner,
        ListModel.NewStatusMessage, ListModel.StartSpinner, ListModel.Select]
  · unfold handleChaptersSelectState at h
    cases msg <;> simp only [] at h <;> (try split_ifs at h) <;> (try split at h) <;>
      cases h <;> simp_all [Bubble.resize, ListModel.SetItems, ListModel.SetItem]
  · unfold handlePromptState at h
    cases msg <;> simp only [] at h <;> (try split_ifs at h) <;> cases h <;>
      simp_all [Bubble.resize]
  · unfold handleProgressState at h
    cases msg <;> simp only [] at h <;> (try split_ifs at h) <;> cases h <;>
      simp_all [Bubble.resize]
  · unfold handleExitPromptState at h
    cases msg <;> simp only [] at h <;> (try split_ifs at h) <;> cases h <;>
      simp_all [Bubble.resize]

theorem handle_children_result (w : Widgets) (fresh : Chan) (b : Bubble) (L : List URL)
    (hs : b.state = mangaSelectState) :
    ∃ b1 c1, handle w fresh b (Msg.sourceResponseMsg L) = Outcome.ok b1 c1 ∧
      b1.state = chaptersSelectState ∧ b1.chapters.Items = wrapItems L ∧
      b1.selected = b.selected := by
  obtain ⟨t, ht⟩ := prettyTrim_thirty b.prevManga
  simp only [handle, hs, handleMangaSelectState, ht]
  refine ⟨_, _, rfl, ?_⟩
  simp [ListModel.Items, ListModel.SetItems, ListModel.NewStatusMessage,
    ListModel.StopSpinner]

theorem reachable_cleared (w : Widgets) (b0 b : Bubble) (h0 : SelectionCleared b0)
    (hr : Reachable w b0 b) : SelectionCleared b := by
  induction hr with
  | start => exact h0
  | step fresh msg _ h ih => exact handle_preserves_cleared w fresh _ _ msg _ ih h

/-- C7: starting from a context in the Search stage with an empty selection
set, in every context reachable through the stage handlers the selection set
is empty whenever the stage is Search, Spinner or ItemSelect; in particular a
children result handled in ItemSelect replaces the child list while the
selection set is empty, and the selection set is empty after every step that
ends in ItemSelect or Search. -/
theorem selection_cleared_reachable (w : Widgets) (b0 b : Bubble)
    (_ : b0.state = searchState) (hsel : b0.selected = ∅) (hr : Reachable w b0 b) :
    (b.state = searchState ∨ b.state = spinnerState ∨ b.state = mangaSelectState →
      b.selected = ∅) ∧
    (b.state = mangaSelectState → ∀ fresh L, ∃ b1 c1,
      handle w fresh b (Msg.sourceResponseMsg L) = Outcome.ok b1 c1 ∧
      b1.state = chaptersSelectState ∧ b1.chapters.Items = wrapItems L ∧
      b.selected = ∅ ∧ b1.selected = ∅) ∧
    (∀ fresh msg b1 c1, handle w fresh b msg = Outcome.ok b1 c1 →
      b1.state = mangaSelectState ∨ b1.state = searchState → b1.selected = ∅) := by
  have hb : SelectionCleared b := reachable_cleared w b0 b (fun _ => hsel) hr
  refine ⟨hb, ?_, ?_⟩
  · intro hs fresh L
    obtain ⟨b1, c1, h1, h2, h3, h4⟩ := handle_children_result w fresh b L hs
    have he : b.selected = ∅ := hb (Or.inr (Or.inr hs))
    exact ⟨b1, c1, h1, h2, h3, he, h4.trans he⟩
  · intro fresh msg b1 c1 h hs
    have h1 : SelectionCleared b1 := handle_preserves_cleared w fresh b b1 msg c1 hb h
    rcases hs with hs | hs
    · exact h1 (Or.inr (Or.inr hs))
    · exact h1 (Or.inl hs)

theorem reachable_runEvents (w : Widgets) (b0 : Bubble) (evs : List (Chan × Msg))
    (b b1 : Bubble) (hr : Reachable w b0 b) (h : runEvents w b evs = some b1) :
    Reachable w b0 b1 := by
  induction evs generalizing b with
  | nil =>
    simp only [runEvents, Option.some.injEq] at h
    rw [← h]; exact hr
  | cons e rest ih =>
    obtain ⟨fresh, msg⟩ := e
    simp only [runEvents] at h
    split at h
    · rename_i b2 c2 heq
      exact ih b2 (Reachable.step fresh msg hr heq) h
    · exact Option.noConfusion h

theorem reachable_afterBack : Reachable idleWidgets startBubble afterBack :=
  reachable_runEvents idleWidgets startBubble selectThenBack startBubble afterBack
    Reachable.start rfl

/-- Witness of C7: a session that confirms the search, receives an item, opens
it, receives two children, selects the first child and goes back. After the
select key the stage is ChildSelect with position 0 selected; after the back
key the stage is ItemSelect, where the selection set is empty and a children
result replaces the child list with the selection set still empty. -/
theorem selection_cleared_reachable_witness :
    (afterSelect.state = chaptersSelectState ∧ afterSelect.selected = {0} ∧
      afterSelect.chapters.Items.length = 2) ∧
    afterBack.state = mangaSelectState ∧
    afterBack.selected = ∅ ∧
    (∀ fresh L, ∃ b1 c1,
      handle idleWidgets fresh afterBack (Msg.sourceResponseMsg L) = Outcome.ok b1 c1 ∧
      b1.state = chaptersSelectState ∧ b1.chapters.Items = wrapItems L ∧
      afterBack.selected = ∅ ∧ b1.selected = ∅) ∧
    (∀ fresh msg b1 c1, handle idleWidgets fresh afterBack msg = Outcome.ok b1 c1 →
      b1.state = mangaSelectState ∨ b1.state = searchState → b1.selected = ∅) :=
  ⟨⟨by decide, by decide, by decide⟩, by decide,
    (selection_cleared_reachable idleWidgets startBubble afterBack rfl rfl
      reachable_afterBack).1 (Or.inr (Or.inr (by decide))),
    (selection_cleared_reachable idleWidgets startBubble afterBack rfl rfl
      reachable_afterBack).2.1 (by decide),
    (selection_cleared_reachable idleWidgets startBubble afterBack rfl rfl
      reachable_afterBack).2.2⟩

/-! ## The background tasks -/

/-- C8 (the code at the failing input): two sources that each find one URL.
When both goroutines read `found` before either writes it, the search task
sends a single list holding one URL, the other being lost; when the two
appends do not overlap it sends both URLs in completion order. -/
theorem searchMangaAsync_lost_update :
    searchMangaAsync twoSources [0, 1, 0, 1, 0, 1] = [Event.sendSub twoSources.sub [urlB]] ∧
    searchMangaAsync twoSources [0, 0, 0, 1, 1, 1]
      = [Event.sendSub twoSources.sub [urlA, urlB]] ∧
    searchMangaAsync twoSources [1, 1, 1, 0, 0, 0]
      = [Event.sendSub twoSources.sub [urlB, urlA]] := by
  refine ⟨?_, ?_, ?_⟩ <;> decide

/-- C9 (the code at the failing input): when the source fails, the
children-fetch task sends the empty list and then, having no return after
it, sends the returned list as well: two sends, of which one is left after
the single relay has received; when the source succeeds it sends once. -/
theorem getChaptersAsync_sends_twice_on_failure :
    getChaptersAsync sourceTable 0 { urlA with Source := 0 }
      = [Event.sendSub 0 [], Event.sendSub 0 []] ∧
    ((sentOn 0 (getChaptersAsync sourceTable 0 { urlA with Source := 0 })).drop 1).length = 1 ∧
    getChaptersAsync sourceTable 0 { urlA with Source := 1 }
      = [Event.sendSub 0 [urlA, urlB]] := by
  refine ⟨?_, ?_, ?_⟩ <;> decide

theorem downloadLoop_in_range (b : Bubble) (items : List listItem) (order : List Nat)
    (count : Nat) (prevInfo : GoString) (percent : ℚ)
    (hin : ∀ i ∈ order, i < items.length) :
    Event.panic ∉ downloadLoop b items order count prevInfo percent ∧
    downloads (downloadLoop b items order count prevInfo percent)
      = order.filterMap
          (fun i => (items.get? i).map (fun chapter => (b.prevManga, chapter.url, b.pagesChan))) ∧
    (downloads (downloadLoop b items order count prevInfo percent)).length = order.length := by
  induction order generalizing count prevInfo percent with
  | nil => simp [downloadLoop, downloads]
  | cons i rest ih =>
    have hi : i < items.length := hin i (List.mem_cons_self _ _)
    have hrest : ∀ k ∈ rest, k < items.length := fun k hk => hin k (List.mem_cons_of_mem _ hk)
    obtain ⟨h1, h2, h3⟩ := ih (count + 1) (items.get ⟨i, hi⟩).url.Info
      (float64Div (float64OfInt (count + 1)) (float64OfInt b.selected.card)) hrest
    have hget : items.get? i = some (items.get ⟨i, hi⟩) := by
      simp [List.getElem?_eq_getElem hi]
    simp only [downloadLoop, hget]
    refine ⟨?_, ?_, ?_⟩
    · simp only [List.mem_cons, not_or]
      exact ⟨by simp, by simp, h1⟩
    · simp only [downloads, List.filterMap_cons, hget, Option.map_some'] at h2 ⊢
      rw [h2]
    · simp only [downloads, List.filterMap_cons, List.length_cons] at h3 ⊢
      rw [h3]

/-- C10 (as stated, refuted): with two children both selected, `range` may
yield the keys of the selection map as 1, 0, and the download capability is
then invoked for the child at position 1 before the child at position 0,
which is not the display order; and with a selected position outside the
child list the task panics at the lookup and invokes no download at all. -/
theorem startDownloaderAsync_not_display_order :
    (RangeOrder bothSelected.selected [1, 0] ∧
      downloads (startDownloaderAsync bothSelected [1, 0])
        = [([], (chapterAt 1).url, 2), ([], (chapterAt 0).url, 2)] ∧
      downloads (startDownloaderAsync bothSelected [1, 0])
        ≠ (displayOrder bothSelected).filterMap (downloadAt bothSelected)) ∧
    (RangeOrder staleSelected.selected [5] ∧
      startDownloaderAsync staleSelected [5] = [Event.panic] ∧
      downloads (startDownloaderAsync staleSelected [5]) = []) := by
  refine ⟨⟨?_, ?_, ?_⟩, ?_, ?_, ?_⟩ <;> decide

/-- C10 (amended): for every child list and every selection set of positions
below its length, and for every order in which `range` yields the keys of the
selection map (each selected position exactly once, in an order Go leaves
unspecified), the download-batch task does not panic and invokes the
download capability exactly once per selected position, in that order: the
k-th call is for the child at the k-th yielded position. -/
theorem startDownloaderAsync_once_per_selected (b : Bubble) (order : List Nat)
    (hord : RangeOrder b.selected order)
    (hin : ∀ i ∈ b.selected, i < b.chapters.Items.length) :
    Event.panic ∉ startDownloaderAsync b order ∧
    (∀ i ∈ b.selected, order.count i = 1) ∧
    downloads (startDownloaderAsync b order) = order.filterMap (downloadAt b) ∧
    (downloads (startDownloaderAsync b order)).length = b.selected.card := by
  obtain ⟨hnd, hset⟩ := hord
  have hin2 : ∀ i ∈ order, i < b.chapters.Items.length := by
    intro i hi
    exact hin i (by rw [← hset]; exact List.mem_toFinset.mpr hi)
  obtain ⟨h1, h2, h3⟩ := downloadLoop_in_range b b.chapters.Items order 0 [] 0 hin2
  refine ⟨h1, ?_, h2, ?_⟩
  · intro i hi
    have : i ∈ order := List.mem_toFinset.mp (by rw [hset]; exact hi)
    exact List.count_eq_one_of_mem hnd this
  · unfold startDownloaderAsync
    rw [h3, ← hset, List.toFinset_card_of_nodup hnd]

/-- Witness of C10 (amended): two children, both selected, yielded as 1, 0. -/
theorem startDownloaderAsync_once_per_selected_witness :
    RangeOrder bothSelected.selected [1, 0] ∧
    (∀ i ∈ bothSelected.selected, i < bothSelected.chapters.Items.length) ∧
    Event.panic ∉ startDownloaderAsync bothSelected [1, 0] ∧
    (∀ i ∈ bothSelected.selected, [1, 0].count i = 1) ∧
    downloads (startDownloaderAsync bothSelected [1, 0])
      = [1, 0].filterMap (downloadAt bothSelected) ∧
    (downloads (startDownloaderAsync bothSelected [1, 0])).length = bothSelected.selected.card :=
  ⟨by decide, by decide,
    startDownloaderAsync_once_per_selected bothSelected [1, 0] (by decide) (by decide)⟩

/-! ## The progress updates of the download batch -/

theorem label_before_download (b : Bubble) (items : List listItem) (order : List Nat)
    (count : Nat) (prevInfo : GoString) (percent : ℚ) (j : Nat) (parent : GoString)
    (url : URL) (sink : Chan)
    (h : (downloadLoop b items order count prevInfo percent).get? j
      = some (Event.download parent url sink)) :
    ∃ j1 p, j = j1 + 1 ∧
      (downloadLoop b items order count prevInfo percent).get? j1
        = some (Event.sendTick b.tick p url.Info) := by
  induction order generalizing count prevInfo percent j with
  | nil =>
    cases j <;> simp [downloadLoop] at h
  | cons i rest ih =>
    cases hget : items.get? i with
    | none =>
      simp only [downloadLoop, hget] at h
      cases j <;> simp at h
    | some chapter =>
      simp only [downloadLoop, hget] at h ⊢
      match j, h with
      | 0, h => simp at h
      | 1, h =>
        simp only [List.get?_cons_succ, List.get?_cons_zero, Option.some.injEq,
          Event.download.injEq] at h
        obtain ⟨_, hu, _⟩ := h
        exact ⟨0, percent, rfl, by simp [← hu]⟩
      | j2 + 2, h =>
        simp only [List.get?_cons_succ] at h
        obtain ⟨j1, p, hj, hp⟩ := ih _ _ _ _ h
        exact ⟨j1 + 2, p, by omega, by simpa using hp⟩

/-- C12 (as stated, refuted): with two children selected and processed as
c_1, c_2, the event just before the download of c_2 is the progress update
labelled with the descriptor of c_2 itself, which differs from that of
c_1. -/
theorem update_before_second_download_labels_second :
    (startDownloaderAsync bothSelected [0, 1]).get? 1
      = some (Event.download [] (chapterAt 0).url 2) ∧
    (startDownloaderAsync bothSelected [0, 1]).get? 3
      = some (Event.download [] (chapterAt 1).url 2) ∧
    ((startDownloaderAsync bothSelected [0, 1]).get? 2).bind Event.text?
      = some (chapterAt 1).url.Info ∧
    ((startDownloaderAsync bothSelected [0, 1]).get? 2).bind Event.text?
      ≠ some (chapterAt 0).url.Info := by
  refine ⟨?_, ?_, ?_, ?_⟩ <;> decide

/-- C12 (amended): for every selection, in whatever order it is processed,
every call of the download capability is immediately preceded by a progress
update labelled with the descriptor of the very item that call downloads
(not of the item before it). -/
theorem update_before_download_own_label (b : Bubble) (order : List Nat) (j : Nat)
    (parent : GoString) (url : URL) (sink : Chan)
    (h : (startDownloaderAsync b order).get? j = some (Event.download parent url sink)) :
    ∃ j1 p, j = j1 + 1 ∧
      (startDownloaderAsync b order).get? j1 = some (Event.sendTick b.tick p url.Info) :=
  label_before_download b b.chapters.Items order 0 [] 0 j parent url sink h

/-- Witness of C12 (amended): the second download of two. -/
theorem update_before_download_own_label_witness :
    ∃ j1 p, 3 = j1 + 1 ∧
      (startDownloaderAsync bothSelected [0, 1]).get? j1
        = some (Event.sendTick bothSelected.tick p (chapterAt 1).url.Info) :=
  update_before_download_own_label bothSelected [0, 1] 3 [] (chapterAt 1).url 2 (by decide)

/-! ## The relays of the Progress stage -/

/-- C14 (the code at the failing input): the search for `a` is confirmed,
abandoned with the back key in the Spinner stage (the context gets the fresh
channel 5) and the search for `ab` is confirmed. The relay armed for the
first search is still pending on the old channel 0, on which the first
search task sends; when it does, the list found for `a` is delivered as a
search-result event in the Spinner stage of the second search and becomes
the item list of the ItemSelect stage, under the title of the query `ab`. -/
theorem abandoned_search_result_is_delivered :
    backAndSearchAgain.map
        (fun r => (r.b.state, r.b.sub, r.b.input.Value, r.relays, r.searches.map (fun t => t.sub)))
      = some (spinnerState, 5, goStr "ab", [0, 5], [0, 5]) ∧
    backAndSearchAgain.map
        (fun r => r.searches.map (fun t => searchMangaAsync t [0, 0, 0]))
      = some [[Event.sendSub 0 [{ Address := [], Info := goStr "a", Source := 0 }]],
              [Event.sendSub 5 [{ Address := [], Info := goStr "ab", Source := 0 }]]] ∧
    staleDelivery.map
        (fun r => (r.b.state, r.b.manga.Items.map (fun c => c.url.Info), r.b.manga.Title, r.relays))
      = some (mangaSelectState, [goStr "a"], goStr "Manga - ab", [5]) := by
  refine ⟨?_, ?_, ?_⟩ <;> decide

/-! ## Marks and selection set -/

theorem foldl_selectAllStep_items (l : List Nat) (items : List listItem) (S : Finset Nat)
    (h : ∀ i ∈ l, i < items.length) (hl : l.Nodup) (j : Nat) :
    (l.foldl selectAllStep (items, S)).1.get? j
      = if j ∈ l then (items.get? j).map listItem.mark else items.get? j := by
  induction l generalizing items S with
  | nil => simp
  | cons i l ih =>
    have hi : i < items.length := h i (List.mem_cons_self _ _)
    have hil : i ∉ l := (List.nodup_cons.mp hl).1
    have hstep : selectAllStep (items, S) i = (items.set i (items.get ⟨i, hi⟩).mark, toggle S i) := by
      simp [selectAllStep, List.getElem?_eq_getElem hi]
    have h2 : ∀ k ∈ l, k < (items.set i (items.get ⟨i, hi⟩).mark).length := by
      intro k hk
      rw [List.length_set]
      exact h k (List.mem_cons_of_mem _ hk)
    rw [List.foldl_cons, hstep, ih _ _ h2 (List.nodup_cons.mp hl).2]
    by_cases hj : j = i
    · subst hj
      simp [hil, List.getElem?_eq_getElem hi, List.getElem?_set_self hi]
    · have hne : i ≠ j := fun e => hj e.symm
      simp [hj, List.getElem?_set_ne hne]

theorem selectAllLoop_items (items : List listItem) (S : Finset Nat) (j : Nat) :
    (selectAllLoop items S).1.get? j = (items.get? j).map listItem.mark := by
  unfold selectAllLoop
  rw [foldl_selectAllStep_items _ items S (fun _ hi => List.mem_range.mp hi)
    (List.nodup_range _) j]
  by_cases hj : j < items.length
  · simp [hj]
  · have hnone : items[j]? = none := List.getElem?_eq_none (by omega)
    simp [hj, hnone]

theorem handle_select (w : Widgets) (fresh : Chan) (b : Bubble) (key : GoString)
    (item : listItem) (hs : b.state = chaptersSelectState) (hk : selectKey b key)
    (hit : b.chapters.SelectedItem = some item)
    (hidx : b.chapters.Index < b.chapters.Items.length) :
    handle w fresh b (Msg.KeyMsg key)
      = Outcome.ok
          { b with
            selected := toggle b.selected b.chapters.Index
            chapters := (b.chapters.SetItem b.chapters.Index item.mark).1 }
          (b.chapters.SetItem b.chapters.Index item.mark).2 := by
  obtain ⟨hq, hb, hc, ha, hsel⟩ := hk
  simp [handle, hs, handleChaptersSelectState, hq, hb, hc, ha, hsel, hit, hidx]

theorem lockStep_select (b : Bubble) (item : listItem) (hl : LockStep b)
    (hf : b.chapters.filtered = none) (hit : b.chapters.SelectedItem = some item) :
    LockStep
      { b with
        selected := toggle b.selected b.chapters.Index
        chapters := (b.chapters.SetItem b.chapters.Index item.mark).1 } := by
  have hget : b.chapters.items[b.chapters.cursor]? = some item := by
    simpa [ListModel.SelectedItem, ListModel.VisibleItems, ListModel.Index, hf] using hit
  have hc : b.chapters.cursor < b.chapters.items.length := by
    by_contra hcon
    rw [List.getElem?_eq_none (by omega)] at hget
    exact Option.noConfusion hget
  intro i
  have hli := hl i
  simp only [ListModel.Items, List.get?_eq_getElem?] at hli
  simp only [ListModel.Items, ListModel.SetItem, ListModel.Index, List.get?_eq_getElem?,
    mem_toggle]
  by_cases hi : i = b.chapters.cursor
  · subst hi
    rw [List.getElem?_set_self hc]
    rw [hget] at hli
    simp only [Option.some.injEq, exists_eq_left'] at hli ⊢
    simp only [ne_eq, not_true_eq_false, iff_false, hli, listItem.mark]
    cases item.selected <;> simp
  · have hne : b.chapters.cursor ≠ i := fun e => hi e.symm
    rw [List.getElem?_set_ne hne]
    simp only [ne_eq, hi, not_false_eq_true, iff_true]
    exact hli

theorem lockStep_selectAll (b : Bubble) (hl : LockStep b) :
    LockStep
      { b with
        selected := (selectAllLoop b.chapters.Items b.selected).2
        chapters := (b.chapters.SetItems (selectAllLoop b.chapters.Items b.selected).1).1 } := by
  intro i
  have hli := hl i
  have hitems := selectAllLoop_items b.chapters.Items b.selected i
  simp only [ListModel.Items, ListModel.SetItems] at hli hitems ⊢
  rw [mem_selectAllLoop, hitems]
  by_cases hi : i < b.chapters.items.length
  · have hget : b.chapters.items.get? i = some (b.chapters.items.get ⟨i, hi⟩) := by
      simp [List.getElem?_eq_getElem hi]
    rw [hget] at hli ⊢
    simp only [Option.some.injEq, exists_eq_left', Option.map_some'] at hli ⊢
    simp only [hi, not_true_eq_false, iff_false, hli, listItem.mark]
    cases (b.chapters.items.get ⟨i, hi⟩).selected <;> simp
  · have hnone : b.chapters.items.get? i = none := by
      rw [List.get?_eq_getElem?]
      exact List.getElem?_eq_none (by omega)
    rw [hnone] at hli ⊢
    simp only [false_and, exists_false, iff_false, Option.map_none'] at hli ⊢
    simp [hi, hli]

theorem childBubble_lockStep : LockStep childBubble := by
  intro i
  by_cases h : i < 10
  · interval_cases i <;>
      simp [childBubble, ListModel.Items, emptyList, startBubble, chapterAt, listItem.mark,
        List.range, List.range.loop]
  · have hnone : childBubble.chapters.Items.get? i = none := by
      rw [List.get?_eq_getElem?]
      exact List.getElem?_eq_none (by simp [childBubble, ListModel.Items]; omega)
    rw [hnone]
    simp [childBubble]
    omega

theorem filteredChild_selected : filteredChild.selected = {0} := by decide

theorem filteredChild_items : filteredChild.chapters.Items = [childA.mark, childB] := by decide

theorem filteredChild_lockStep : LockStep filteredChild := by
  intro i
  rw [filteredChild_selected, filteredChild_items]
  match i with
  | 0 => simp [childA, listItem.mark]
  | 1 => simp [childB]
  | i + 2 => simp

/-- C15 (the code at the failing input): in a session the two children `A` and `B`
are received, the first is selected with the select key, so that it is
marked and marks and selection set are in lock-step, and the child list is
then filtered so that only `B` is visible, with the cursor on it. The select
key now takes the visible item `B` but uses its index among the visible
items, 0, both as key of the selection map and as position of `SetItem`:
position 0 leaves the selection set while the item stored at position 0 is a
marked copy of `B`, so position 0 is marked and not selected, and `A` is gone
from the child list. The select-all key, which walks the positions of all
items, keeps lock-step in the same context. -/
theorem select_under_filter_breaks_lockStep :
    runEvents filterWidgets startBubble (selectUnderFilter.take 6) = some filteredChild ∧
    (filteredChild.state = chaptersSelectState ∧ filteredChild.selected = {0} ∧
      filteredChild.chapters.Items = [childA.mark, childB] ∧
      filteredChild.chapters.VisibleItems = [childB] ∧
      filteredChild.chapters.Index = 0 ∧
      filteredChild.chapters.SelectedItem = some childB) ∧
    LockStep filteredChild ∧
    (handle filterWidgets 7 filteredChild (Msg.KeyMsg (goStr " "))).bubble?.map
        (fun b => (b.state, b.selected, b.chapters.Items))
      = some (chaptersSelectState, ∅, [childB.mark, childB]) ∧
    (∀ b1 c1, handle filterWidgets 7 filteredChild (Msg.KeyMsg (goStr " ")) = Outcome.ok b1 c1 →
      ¬ LockStep b1) ∧
    (∀ b1 c1, handle filterWidgets 7 filteredChild (Msg.KeyMsg (goStr "tab")) = Outcome.ok b1 c1 →
      LockStep b1) := by
  have hrun : (handle filterWidgets 7 filteredChild (Msg.KeyMsg (goStr " "))).bubble?.map
        (fun b => (b.state, b.selected, b.chapters.Items))
      = some (chaptersSelectState, ∅, [childB.mark, childB]) := by decide
  refine ⟨rfl, ⟨by decide, filteredChild_selected, filteredChild_items, by decide, by decide,
    by decide⟩, filteredChild_lockStep, hrun, ?_, ?_⟩
  · intro b1 c1 h hl
    rw [h] at hrun
    simp only [Outcome.bubble?, Option.map_some', Option.some.injEq, Prod.mk.injEq] at hrun
    obtain ⟨_, hsel, hitems⟩ := hrun
    have h0 := hl 0
    rw [hsel, hitems] at h0
    simp [childB, listItem.mark] at h0
  · intro b1 c1 h
    have hk : selectAllKey filteredChild (goStr "tab") := by decide
    rw [handle_selectAll filterWidgets 7 filteredChild (goStr "tab") (by decide) hk] at h
    cases h
    exact lockStep_selectAll filteredChild filteredChild_lockStep

/-! ## No selected item in ItemSelect -/

/-- C16: in the ItemSelect stage, for every context whose list has no selected
item, handling the select key or the confirm key returns the context
unchanged with the nil command: the stage stays ItemSelect, the recorded
parent name is untouched, and no task and no relay is launched. -/
theorem itemSelect_nil_is_noop (w : Widgets) (fresh : Chan) (b : Bubble) (key : GoString)
    (hs : b.state = mangaSelectState)
    (hq : Matches key [(b.keys mangaSelectState).Quit] = false)
    (hb : Matches key [(b.keys mangaSelectState).Back] = false)
    (hk : Matches key [(b.keys mangaSelectState).Select] = true ∨
      Matches key [(b.keys mangaSelectState).Confirm] = true)
    (hnil : b.manga.SelectedItem = none) :
    handle w fresh b (Msg.KeyMsg key) = Outcome.ok b nilCmd := by
  rcases hk with hk | hk <;>
    simp [handle, hs, handleMangaSelectState, hq, hb, hk, hnil]

/-- Witness of C16: the confirm key on an empty item list. -/
theorem itemSelect_nil_is_noop_witness :
    handle idleWidgets 7 itemSelectEmpty (Msg.KeyMsg (goStr "enter"))
      = Outcome.ok itemSelectEmpty nilCmd :=
  itemSelect_nil_is_noop idleWidgets 7 itemSelectEmpty (goStr "enter") rfl (by decide)
    (by decide) (Or.inr (by decide)) (by decide)

/-! ## Events without an explicit case -/

/-- C17 (as stated, refuted): in the Prompt and in the ExitPrompt stage an
event that matches no explicit case is dropped: the handler returns the
context unchanged with the nil command, although every widget update would
have returned a command for it. -/
theorem prompt_drops_unmatched_event :
    explicitCase promptPlain (Msg.other 0) = false ∧
    handle loudWidgets 7 promptPlain (Msg.other 0) = Outcome.ok promptPlain nilCmd ∧
    explicitCase exitPlain (Msg.KeyMsg (goStr "x")) = false ∧
    handle loudWidgets 7 exitPlain (Msg.KeyMsg (goStr "x")) = Outcome.ok exitPlain nilCmd ∧
    (loudWidgets.inputUpdate promptPlain.input (Msg.other 0)).2 ≠ nilCmd ∧
    (loudWidgets.spinnerUpdate promptPlain.spinner (Msg.other 0)).2 ≠ nilCmd ∧
    (loudWidgets.listUpdate promptPlain.chapters (Msg.other 0)).2 ≠ nilCmd ∧
    (loudWidgets.progressUpdate promptPlain.progress (Msg.other 0)).2 ≠ nilCmd := by
  refine ⟨by decide, rfl, by decide, rfl, ?_, ?_, ?_, ?_⟩ <;>
    simp [loudWidgets, nilCmd]

/-- C17 (amended): for every event that matches none of the explicit cases of
the active stage, the handlers of Search, Spinner, ItemSelect, ChildSelect
and Progress forward it to the stage's widget update (text input, spinner,
item list, child list, spinner) and return that widget's command, leaving
the stage unchanged; the handlers of Prompt and ExitPrompt, stages without a
widget, return the context unchanged with the nil command. -/
theorem unmatched_event_forwarded (w : Widgets) (fresh : Chan) (b : Bubble) (msg : Msg)
    (hu : explicitCase b msg = false) :
    (b.state = searchState →
      handle w fresh b msg
        = Outcome.ok { b with input := (w.inputUpdate b.input msg).1 }
            (w.inputUpdate b.input msg).2) ∧
    (b.state = spinnerState →
      handle w fresh b msg
        = Outcome.ok { b with spinner := (w.spinnerUpdate b.spinner msg).1 }
            (w.spinnerUpdate b.spinner msg).2) ∧
    (b.state = mangaSelectState →
      handle w fresh b msg
        = Outcome.ok { b with manga := (w.listUpdate b.manga msg).1 }
            (w.listUpdate b.manga msg).2) ∧
    (b.state = chaptersSelectState →
      handle w fresh b msg
        = Outcome.ok { b with chapters := (w.listUpdate b.chapters msg).1 }
            (w.listUpdate b.chapters msg).2) ∧
    (b.state = progressState →
      handle w fresh b msg
        = Outcome.ok { b with spinner := (w.spinnerUpdate b.spinner msg).1 }
            (w.spinnerUpdate b.spinner msg).2) ∧
    (b.state = promptState ∨ b.state = exitPromptState →
      handle w fresh b msg = Outcome.ok b nilCmd) := by
  refine ⟨?_, ?_, ?_, ?_, ?_, ?_⟩
  · intro hs
    cases msg <;> simp_all [explicitCase, handle, handleSearchState, Batch]
  · intro hs
    cases msg <;> simp_all [explicitCase, handle, handleSpinnerState, Batch]
  · intro hs
    cases msg <;> simp_all [explicitCase, handle, handleMangaSelectState, Batch]
  · intro hs
    cases msg <;> simp_all [explicitCase, handle, handleChaptersSelectState, Batch]
  · intro hs
    cases msg <;> simp_all [explicitCase, handle, handleProgressState, Batch]
  · rintro (hs | hs) <;>
      cases msg <;> simp_all [explicitCase, handle, handlePromptState, handleExitPromptState]

/-- Witness of C17 (amended): an unmatched key in the Spinner stage goes to the
spinner, and an unmatched event in the Prompt stage is dropped. -/
theorem unmatched_event_forwarded_witness :
    handle loudWidgets 7 spinnerBubble (Msg.KeyMsg (goStr "x"))
      = Outcome.ok
          { spinnerBubble with
            spinner := (loudWidgets.spinnerUpdate spinnerBubble.spinner
              (Msg.KeyMsg (goStr "x"))).1 }
          (loudWidgets.spinnerUpdate spinnerBubble.spinner (Msg.KeyMsg (goStr "x"))).2 ∧
    handle loudWidgets 7 promptPlain (Msg.other 0) = Outcome.ok promptPlain nilCmd :=
  ⟨(unmatched_event_forwarded loudWidgets 7 spinnerBubble (Msg.KeyMsg (goStr "x"))
      (by decide)).2.1 rfl,
   (unmatched_event_forwarded loudWidgets 7 promptPlain (Msg.other 0) (by decide)).2.2.2.2.2
      (Or.inl rfl)⟩

/-! ## The selection set stays inside the child list -/

theorem handle_preserves_inRange (w : Widgets) (fresh : Chan) (b b1 : Bubble) (msg : Msg)
    (cmd : Cmd) (hw : KeepsItemCount w) (hinv : InRange b) (hc : SelectionCleared b)
    (h : handle w fresh b msg = Outcome.ok b1 cmd) : InRange b1 := by
  unfold InRange SelectionCleared at *
  simp only [ListModel.Items] at *
  cases hs : b.state <;> simp only [handle, hs] at h
  · unfold handleSearchState at h
    cases msg <;> simp only [] at h <;> (try split_ifs at h) <;> cases h <;>
      simp_all [Bubble.resize]
  · unfold handleSpinnerState at h
    cases msg <;> simp only [] at h <;> (try split at h) <;> (try split_ifs at h) <;>
      cases h <;> simp_all [Bubble.resize, ListModel.SetItems]
  · unfold handleMangaSelectState at h
    cases msg <;> simp only [] at h <;> (try split at h) <;> (try split_ifs at h) <;>
      (try split at h) <;> cases h <;>
      simp_all [Bubble.resize, ListModel.SetItems, ListModel.StopSpinner,
        ListModel.NewStatusMessage, ListModel.StartSpinner, ListModel.Select]
  · unfold handleChaptersSelectState at h
    cases msg with
    | KeyMsg key =>
      simp only [] at h
      split_ifs at h
      · cases h; exact hinv
      · cases h; simp
      · cases h; exact hinv
      · cases h
        intro i hi
        simp only [ListModel.SetItems, ListModel.Items] at hi ⊢
        rw [selectAllLoop_length]
        rw [mem_selectAllLoop] at hi
        by_contra hcon
        exact hcon (hinv i (hi.mpr hcon))
      · rename_i hidx
        split at h
        · cases h
        · cases h
          intro i hi
          simp only [ListModel.SetItem, ListModel.Index, ListModel.Items, List.length_set,
            mem_toggle] at hi hidx ⊢
          by_cases hic : i = b.chapters.cursor
          · rw [hic]; exact hidx
          · exact hinv i (hi.mpr hic)
      · split at h <;> cases h
      · cases h
        intro i hi
        rw [hw b.chapters _]
        exact hinv i hi
    | WindowSizeMsg _ _ => cases h; exact hinv
    | sourceResponseMsg _ => cases h; intro i hi; rw [hw b.chapters _]; exact hinv i hi
    | progressInfoMsg _ _ => cases h; intro i hi; rw [hw b.chapters _]; exact hinv i hi
    | subProgressInfoMsg _ _ => cases h; intro i hi; rw [hw b.chapters _]; exact hinv i hi
    | FrameMsg _ => cases h; intro i hi; rw [hw b.chapters _]; exact hinv i hi
    | other _ => cases h; intro i hi; rw [hw b.chapters _]; exact hinv i hi
  · unfold handlePromptState at h
    cases msg <;> simp only [] at h <;> (try split_ifs at h) <;> cases h <;>
      simp_all [Bubble.resize]
  · unfold handleProgressState at h
    cases msg <;> simp only [] at h <;> (try split_ifs at h) <;> cases h <;>
      simp_all [Bubble.resize]
  · unfold handleExitPromptState at h
    cases msg <;> simp only [] at h <;> (try split_ifs at h) <;> cases h <;>
      simp_all [Bubble.resize]

theorem reachable_inRange (w : Widgets) (b0 b : Bubble) (hw : KeepsItemCount w)
    (h0 : InRange b0 ∧ SelectionCleared b0) (hr : Reachable w b0 b) :
    InRange b ∧ SelectionCleared b := by
  induction hr with
  | start => exact h0
  | step fresh msg _ h ih =>
    exact ⟨handle_preserves_inRange w fresh _ _ msg _ hw ih.1 ih.2 h,
      handle_preserves_cleared w fresh _ _ msg _ ih.2 h⟩

/-- C18: starting from a context with an empty selection set, with a list widget
whose own update keeps the number of items (the store of `SetItem` at the
cursor index succeeds only when that index is below the length of the list),
in every context reachable through the stage handlers every
position in the selection set is below the length of the child list; hence
the lookup `items[index]` of the download-batch task succeeds for every
selected position and the task does not panic. -/
theorem selection_in_range_reachable (w : Widgets) (b0 b : Bubble)
    (hsel : b0.selected = ∅) (hw : KeepsItemCount w) (hr : Reachable w b0 b) :
    (∀ i ∈ b.selected, i < b.chapters.Items.length) ∧
    ∀ order, RangeOrder b.selected order →
      (∀ i ∈ order, ∃ item, b.chapters.Items.get? i = some item) ∧
      Event.panic ∉ startDownloaderAsync b order := by
  have h0 : InRange b0 ∧ SelectionCleared b0 :=
    ⟨fun i hi => by rw [hsel] at hi; simp at hi, fun _ => hsel⟩
  have hb : InRange b := (reachable_inRange w b0 b hw h0 hr).1
  refine ⟨hb, ?_⟩
  intro order hord
  have hin : ∀ i ∈ order, i < b.chapters.Items.length := by
    intro i hi
    exact hb i (by rw [← hord.2]; exact List.mem_toFinset.mpr hi)
  refine ⟨?_, (downloadLoop_in_range b b.chapters.Items order 0 [] 0 hin).1⟩
  intro i hi
  exact ⟨b.chapters.Items.get ⟨i, hin i hi⟩, by simp [List.getElem?_eq_getElem (hin i hi)]⟩

/-- Witness of C18: the context reached from two unselected children by the
select key. -/
theorem selection_in_range_reachable_witness :
    (∀ i ∈ (toggle childNoneSelected.selected childNoneSelected.chapters.Index),
      i < (childNoneSelected.chapters.SetItem childNoneSelected.chapters.Index
        (chapterAt 0).mark).1.Items.length) ∧
    ∀ order, RangeOrder (toggle childNoneSelected.selected childNoneSelected.chapters.Index)
        order →
      (∀ i ∈ order, ∃ item,
        (childNoneSelected.chapters.SetItem childNoneSelected.chapters.Index
          (chapterAt 0).mark).1.Items.get? i = some item) ∧
      Event.panic ∉ startDownloaderAsync
        { childNoneSelected with
          selected := toggle childNoneSelected.selected childNoneSelected.chapters.Index
          chapters := (childNoneSelected.chapters.SetItem childNoneSelected.chapters.Index
            (chapterAt 0).mark).1 } order :=
  selection_in_range_reachable idleWidgets childNoneSelected _ rfl (fun _ _ => rfl)
    (Reachable.step 7 (Msg.KeyMsg (goStr " ")) Reachable.start
      (handle_select idleWidgets 7 childNoneSelected (goStr " ") (chapterAt 0) rfl
        (by decide) (by decide) (by decide)))

/-! ## The empty selection -/

/-- C19: with an empty selection set the confirm key of ChildSelect leads to
Prompt and the confirm key of Prompt leads to Progress and launches the
download-batch task; that task sends exactly one progress update, with
fraction 0 and an empty label, and invokes no download; the update is handled
in Progress without leaving it, and in the Progress stage only a progress
result with fraction 1 changes the stage, so ExitPrompt is not reached. -/
theorem empty_selection_stalls (w : Widgets) (fresh : Chan) (b : Bubble) (key1 key2 : GoString)
    (hs : b.state = chaptersSelectState) (hsel : b.selected = ∅)
    (hq1 : Matches key1 [(b.keys chaptersSelectState).Quit] = false)
    (hb1 : Matches key1 [(b.keys chaptersSelectState).Back] = false)
    (hc1 : Matches key1 [(b.keys chaptersSelectState).Confirm] = true)
    (hb2 : Matches key2 [(b.keys promptState).Back] = false)
    (hq2 : Matches key2 [(b.keys promptState).Quit] = false)
    (hc2 : Matches key2 [(b.keys promptState).Confirm] = true) :
    handle w fresh b (Msg.KeyMsg key1) = Outcome.ok { b with state := promptState } nilCmd ∧
    (∃ c2, handle w fresh { b with state := promptState } (Msg.KeyMsg key2)
        = Outcome.ok { b with state := progressState } c2 ∧
      Op.startDownloaderAsync { b with state := progressState } ∈ c2) ∧
    (∀ order, RangeOrder b.selected order →
      startDownloaderAsync { b with state := progressState } order
        = [Event.sendTick b.tick 0 []] ∧
      downloads (startDownloaderAsync { b with state := progressState } order) = [] ∧
      (1 : ℚ) ∉ fractions (startDownloaderAsync { b with state := progressState } order)) ∧
    (∀ b3 : Bubble, b3.state = progressState →
      (handle w fresh b3 (Msg.progressInfoMsg 0 [])).state? = some progressState) ∧
    (∀ (b3 b4 : Bubble) (msg : Msg) (c4 : Cmd), b3.state = progressState →
      (∀ text, msg ≠ Msg.progressInfoMsg 1 text) →
      handle w fresh b3 msg = Outcome.ok b4 c4 → b4.state = progressState) := by
  refine ⟨?_, ?_, ?_, ?_, ?_⟩
  · simp [handle, hs, handleChaptersSelectState, hq1, hb1, hc1]
  · simp only [handle, handlePromptState, hb2, hq2, hc2]
    refine ⟨_, rfl, ?_⟩
    simp [Batch]
  · intro order hord
    have hnil : order = [] := by
      have := hord.2
      rw [hsel] at this
      exact (List.toFinset_eq_empty_iff _).mp this
    subst hnil
    simp [startDownloaderAsync, downloadLoop, downloads, fractions]
  · intro b3 hs3
    simp [handle, hs3, handleProgressState, Outcome.state?]
  · intro b3 b4 msg c4 hs3 hne h
    simp only [handle, hs3] at h
    unfold handleProgressState at h
    cases msg <;> simp only [] at h <;> (try split_ifs at h) <;> cases h <;>
      simp_all [Bubble.resize]

/-- Witness of C19: two children, none selected, confirmed twice. -/
theorem empty_selection_stalls_witness :
    handle idleWidgets 7 childNoneSelected (Msg.KeyMsg (goStr "enter"))
      = Outcome.ok { childNoneSelected with state := promptState } nilCmd ∧
    (∃ c2, handle idleWidgets 7 { childNoneSelected with state := promptState }
          (Msg.KeyMsg (goStr "enter"))
        = Outcome.ok { childNoneSelected with state := progressState } c2 ∧
      Op.startDownloaderAsync { childNoneSelected with state := progressState } ∈ c2) ∧
    (∀ order, RangeOrder childNoneSelected.selected order →
      startDownloaderAsync { childNoneSelected with state := progressState } order
        = [Event.sendTick childNoneSelected.tick 0 []] ∧
      downloads (startDownloaderAsync { childNoneSelected with state := progressState } order)
        = [] ∧
      (1 : ℚ) ∉ fractions
        (startDownloaderAsync { childNoneSelected with state := progressState } order)) ∧
    (∀ b3 : Bubble, b3.state = progressState →
      (handle idleWidgets 7 b3 (Msg.progressInfoMsg 0 [])).state? = some progressState) ∧
    (∀ (b3 b4 : Bubble) (msg : Msg) (c4 : Cmd), b3.state = progressState →
      (∀ text, msg ≠ Msg.progressInfoMsg 1 text) →
      handle idleWidgets 7 b3 msg = Outcome.ok b4 c4 → b4.state = progressState) :=
  empty_selection_stalls idleWidgets 7 childNoneSelected (goStr "enter") (goStr "enter")
    rfl rfl (by decide) (by decide) (by decide) (by decide) (by decide) (by decide)

/-! ## Trimming -/

theorem goStr_dots_length : (goStr "...").length = 3 := by decide

theorem goStr_manga_length : (goStr "Manga - ").length = 8 := by decide

theorem prettyTrim_length_le (s : GoString) (limit : Int) (h3 : 3 ≤ limit) :
    ∃ t, prettyTrim s limit = some t ∧ (t.length : Int) ≤ limit := by
  by_cases h : (s.length : Int) > limit
  · have hnn : ¬ (limit - 3 < 0) := by omega
    refine ⟨s.take (limit - 3).toNat ++ goStr "...",
      by simp only [prettyTrim, h, hnn, if_true, if_false], ?_⟩
    rw [List.length_append, List.length_take, goStr_dots_length]
    have : min (limit - 3).toNat s.length = (limit - 3).toNat := by
      apply Nat.min_eq_left
      omega
    rw [this]
    omega
  · exact ⟨s, by simp only [prettyTrim, h, if_false], by omega⟩

/-- C20: for every string s and every limit of at least 3, `prettyTrim(s, limit)`
is s when s has at most limit bytes, and otherwise the first limit-3 bytes of
s followed by three dots, of exactly limit bytes; so the result never has
more than limit bytes, and the title of the item list set in the Spinner
stage, `Manga - ` followed by the query trimmed to 30, has at most 38
bytes. -/
theorem prettyTrim_spec (s : GoString) (limit : Int) (h3 : 3 ≤ limit) :
    ((s.length : Int) ≤ limit → prettyTrim s limit = some s) ∧
    (limit < (s.length : Int) →
      prettyTrim s limit = some (s.take (limit - 3).toNat ++ goStr "...") ∧
      ((s.take (limit - 3).toNat ++ goStr "...").length : Int) = limit) ∧
    (∃ t, prettyTrim s limit = some t ∧ (t.length : Int) ≤ limit) ∧
    (∀ (w : Widgets) (fresh : Chan) (b : Bubble) (L : List URL), b.state = spinnerState →
      ∃ b1 c1, handle w fresh b (Msg.sourceResponseMsg L) = Outcome.ok b1 c1 ∧
        b1.manga.Title.length ≤ 38) := by
  refine ⟨?_, ?_, prettyTrim_length_le s limit h3, ?_⟩
  · intro h
    have : ¬ ((s.length : Int) > limit) := by omega
    simp only [prettyTrim, this, if_false]
  · intro h
    have hgt : (s.length : Int) > limit := h
    have hnn : ¬ (limit - 3 < 0) := by omega
    refine ⟨by simp only [prettyTrim, hgt, hnn, if_true, if_false], ?_⟩
    rw [List.length_append, List.length_take, goStr_dots_length]
    have : min (limit - 3).toNat s.length = (limit - 3).toNat := by
      apply Nat.min_eq_left
      omega
    rw [this]
    omega
  · intro w fresh b L hs
    obtain ⟨t, ht, hlen⟩ := prettyTrim_length_le b.input.Value 30 (by norm_num)
    refine ⟨_, _, handle_spinner_result w fresh b L t hs ht, ?_⟩
    simp only [ListModel.SetItems, List.length_append, goStr_manga_length]
    omega

/-- Witness of C20: a query of 38 bytes trimmed to 30. -/
theorem prettyTrim_spec_witness :
    ((longQuery.length : Int) ≤ 30 → prettyTrim longQuery 30 = some longQuery) ∧
    ((30 : Int) < (longQuery.length : Int) →
      prettyTrim longQuery 30 = some (longQuery.take ((30 : Int) - 3).toNat ++ goStr "...") ∧
      ((longQuery.take ((30 : Int) - 3).toNat ++ goStr "...").length : Int) = 30) ∧
    (∃ t, prettyTrim longQuery 30 = some t ∧ (t.length : Int) ≤ 30) ∧
    (∀ (w : Widgets) (fresh : Chan) (b : Bubble) (L : List URL), b.state = spinnerState →
      ∃ b1 c1, handle w fresh b (Msg.sourceResponseMsg L) = Outcome.ok b1 c1 ∧
        b1.manga.Title.length ≤ 38) :=
  prettyTrim_spec longQuery 30 (by norm_num)

end Tui
